import Mathlib

/-!
# XFS quota control operations (`fs/xfs/xfs_quotaops.c`)

A shallow embedding of the quotactl operations of XFS and the proofs of the
properties stated about them.

Conventions of the embedding.

* A C machine word is modelled by its bit pattern, a natural number below
  `2 ^ width`; `&`, `|` are `&&&`, `|||` and the 32-bit complement `~x` is
  `not32 x`.  An `int` that carries an errno result is an `Int`.
* The quota engine (`xfs_qm_*`, `xfs_irele`) is outside this file: it is a
  record `Engine W` of state-passing functions over an arbitrary engine state
  `W`.  Every call made to it is appended to a trace, so that "makes no engine
  call" and "makes exactly one engine call" are statements about the trace.
* Out-parameters are returned as extra components of the result.
-/

namespace XfsQuotaops

/-! ## Constants declared in headers -/

/-- Modelled from the spec: errno `ENOENT` (the engine's "not provisioned"
answer); its declaration is in a header outside the sources at hand. -/
def ENOENT : Int := 2

/-- Modelled from the spec: errno `EINVAL` (`InvalidArgument`); declared in a
header outside the sources at hand. -/
def EINVAL : Int := 22

/-- Modelled from the spec: errno `EROFS` (`ReadOnlyFilesystem`); declared in a
header outside the sources at hand. -/
def EROFS : Int := 30

/-- Modelled from the spec: errno `ENOSYS` (`QuotaSubsystemInactive`); declared
in a header outside the sources at hand. -/
def ENOSYS : Int := 38

/-- Modelled from the spec: portable quota type `USRQUOTA` (User), declared in
the quota header. -/
def USRQUOTA : Int := 0

/-- Modelled from the spec: portable quota type `GRPQUOTA` (Group), declared in
the quota header. -/
def GRPQUOTA : Int := 1

/-- Modelled from the spec: portable quota type `PRJQUOTA` (Project), declared
in the quota header. -/
def PRJQUOTA : Int := 2

/-- Modelled from the spec: engine quota type `XFS_DQTYPE_USER`, declared in
the XFS format header. -/
def XFS_DQTYPE_USER : Nat := 1

/-- Modelled from the spec: engine quota type `XFS_DQTYPE_PROJ`, declared in
the XFS format header. -/
def XFS_DQTYPE_PROJ : Nat := 2

/-- Modelled from the spec: engine quota type `XFS_DQTYPE_GROUP`, declared in
the XFS format header. -/
def XFS_DQTYPE_GROUP : Nat := 4

/-- Modelled from the spec: the null inode number `NULLFSINO`, `(xfs_ino_t)-1`,
declared in the XFS types header. -/
def NULLFSINO : Nat := 2 ^ 64 - 1

/-- Modelled from the spec: mount flag bit `SB_RDONLY` of `s_flags`, declared in
the VFS header. -/
def SB_RDONLY : Nat := 1

/-- Modelled from the spec: state flag `QCI_SYSFILE` (system file present),
declared in the quota header. -/
def QCI_SYSFILE : Nat := 1

/-- Modelled from the spec: state flag `QCI_ACCT_ENABLED`, declared in the quota
header. -/
def QCI_ACCT_ENABLED : Nat := 4

/-- Modelled from the spec: state flag `QCI_LIMITS_ENFORCED`, declared in the
quota header. -/
def QCI_LIMITS_ENFORCED : Nat := 8

/-- Modelled from the spec: field-mask bit `QC_SPC_TIMER` (space timer),
declared in the quota header. -/
def QC_SPC_TIMER : Nat := 64

/-- Modelled from the spec: field-mask bit `QC_INO_TIMER` (inode timer),
declared in the quota header. -/
def QC_INO_TIMER : Nat := 128

/-- Modelled from the spec: field-mask bit `QC_RT_SPC_TIMER` (realtime-space
timer), declared in the quota header. -/
def QC_RT_SPC_TIMER : Nat := 256

/-- Modelled from the spec: `QC_TIMER_MASK`, the three timer bits, declared in
the quota header. -/
def QC_TIMER_MASK : Nat := QC_SPC_TIMER ||| QC_INO_TIMER ||| QC_RT_SPC_TIMER

/-- Modelled from the spec: field-mask bit `QC_SPC_WARNS` (space warn count),
declared in the quota header. -/
def QC_SPC_WARNS : Nat := 512

/-- Modelled from the spec: field-mask bit `QC_INO_WARNS` (inode warn count),
declared in the quota header. -/
def QC_INO_WARNS : Nat := 1024

/-- Modelled from the spec: field-mask bit `QC_RT_SPC_WARNS` (realtime-space
warn count), declared in the quota header. -/
def QC_RT_SPC_WARNS : Nat := 2048

/-- Modelled from the spec: `QC_WARNS_MASK`, the three warn-count bits, declared
in the quota header. -/
def QC_WARNS_MASK : Nat := QC_SPC_WARNS ||| QC_INO_WARNS ||| QC_RT_SPC_WARNS

/-- Modelled from the spec: portable flag `FS_QUOTA_UDQ_ACCT` (user
accounting), declared in the XFS quota interface header. -/
def FS_QUOTA_UDQ_ACCT : Nat := 1

/-- Modelled from the spec: portable flag `FS_QUOTA_UDQ_ENFD` (user
enforcement), declared in the XFS quota interface header. -/
def FS_QUOTA_UDQ_ENFD : Nat := 2

/-- Modelled from the spec: portable flag `FS_QUOTA_GDQ_ACCT` (group
accounting), declared in the XFS quota interface header. -/
def FS_QUOTA_GDQ_ACCT : Nat := 4

/-- Modelled from the spec: portable flag `FS_QUOTA_GDQ_ENFD` (group
enforcement), declared in the XFS quota interface header. -/
def FS_QUOTA_GDQ_ENFD : Nat := 8

/-- Modelled from the spec: portable flag `FS_QUOTA_PDQ_ACCT` (project
accounting), declared in the XFS quota interface header. -/
def FS_QUOTA_PDQ_ACCT : Nat := 16

/-- Modelled from the spec: portable flag `FS_QUOTA_PDQ_ENFD` (project
enforcement), declared in the XFS quota interface header. -/
def FS_QUOTA_PDQ_ENFD : Nat := 32

/-- Modelled from the spec: type-mask bit `FS_USER_QUOTA`, declared in the XFS
quota interface header. -/
def FS_USER_QUOTA : Nat := 1

/-- Modelled from the spec: type-mask bit `FS_PROJ_QUOTA`, declared in the XFS
quota interface header. -/
def FS_PROJ_QUOTA : Nat := 2

/-- Modelled from the spec: type-mask bit `FS_GROUP_QUOTA`, declared in the XFS
quota interface header. -/
def FS_GROUP_QUOTA : Nat := 4

/-- Modelled from the spec: engine flag `XFS_UQUOTA_ACCT` (user accounting on),
declared in the XFS log-format header. -/
def XFS_UQUOTA_ACCT : Nat := 0x0001

/-- Modelled from the spec: engine flag `XFS_UQUOTA_ENFD` (user limits
enforced), declared in the XFS log-format header. -/
def XFS_UQUOTA_ENFD : Nat := 0x0002

/-- Modelled from the spec: engine flag `XFS_PQUOTA_ACCT` (project accounting
on), declared in the XFS log-format header. -/
def XFS_PQUOTA_ACCT : Nat := 0x0008

/-- Modelled from the spec: engine flag `XFS_GQUOTA_ACCT` (group accounting on),
declared in the XFS log-format header. -/
def XFS_GQUOTA_ACCT : Nat := 0x0040

/-- Modelled from the spec: engine flag `XFS_GQUOTA_ENFD` (group limits
enforced), declared in the XFS log-format header. -/
def XFS_GQUOTA_ENFD : Nat := 0x0080

/-- Modelled from the spec: engine flag `XFS_PQUOTA_ENFD` (project limits
enforced), declared in the XFS log-format header. -/
def XFS_PQUOTA_ENFD : Nat := 0x0200

/-- Modelled from the spec: `XFS_ALL_QUOTA_ACCT`, the three accounting flags,
declared in the XFS log-format header. -/
def XFS_ALL_QUOTA_ACCT : Nat := XFS_UQUOTA_ACCT ||| XFS_GQUOTA_ACCT ||| XFS_PQUOTA_ACCT

/-- Modelled from the spec: engine option `XFS_QMOPT_UQUOTA`, declared in the
XFS quota definitions header. -/
def XFS_QMOPT_UQUOTA : Nat := 1

/-- Modelled from the spec: engine option `XFS_QMOPT_GQUOTA`, declared in the
XFS quota definitions header. -/
def XFS_QMOPT_GQUOTA : Nat := 2

/-- Modelled from the spec: engine option `XFS_QMOPT_PQUOTA`, declared in the
XFS quota definitions header. -/
def XFS_QMOPT_PQUOTA : Nat := 4

/-- The C complement `~x` of a 32-bit word. -/
def not32 (x : Nat) : Nat := (2 ^ 32 - 1) ^^^ (x % 2 ^ 32)

/-! ## Data model -/

/-- Modelled from the spec: `struct qc_type_state`, the per-type state record
(declared in the quota header).  Fields `flags` .. `rt_spc_warnlimit` are
`unsigned int`, `ino`, `blocks`, `nextents` are 64-bit. -/
structure qc_type_state where
  flags : Nat
  spc_timelimit : Nat
  ino_timelimit : Nat
  rt_spc_timelimit : Nat
  spc_warnlimit : Nat
  ino_warnlimit : Nat
  rt_spc_warnlimit : Nat
  ino : Nat
  blocks : Nat
  nextents : Nat
deriving DecidableEq

/-- Modelled from the spec: `struct qc_state`, the snapshot (declared in the
quota header): `s_incoredqs` and `s_state[MAXQUOTAS]`, the array written out as
its three entries `s_state[USRQUOTA]`, `s_state[GRPQUOTA]`, `s_state[PRJQUOTA]`. -/
structure qc_state where
  s_incoredqs : Nat
  s_state_USRQUOTA : qc_type_state
  s_state_GRPQUOTA : qc_type_state
  s_state_PRJQUOTA : qc_type_state
deriving DecidableEq

/-- Modelled from the spec: `struct qc_info`, the global info record (declared
in the quota header); every field is a 32-bit word. -/
structure qc_info where
  i_fieldmask : Nat
  i_flags : Nat
  i_spc_timelimit : Nat
  i_ino_timelimit : Nat
  i_rt_spc_timelimit : Nat
  i_spc_warnlimit : Nat
  i_ino_warnlimit : Nat
  i_rt_spc_warnlimit : Nat
deriving DecidableEq

/-- Modelled from the spec: `struct qc_dqblk`, the field-mask-qualified limits
record (declared in the quota header). -/
structure qc_dqblk where
  d_fieldmask : Nat
  d_spc_hardlimit : Nat
  d_spc_softlimit : Nat
  d_ino_hardlimit : Nat
  d_ino_softlimit : Nat
  d_space : Nat
  d_ino_count : Nat
  d_ino_timer : Nat
  d_spc_timer : Nat
  d_ino_warns : Nat
  d_spc_warns : Nat
  d_rt_spc_hardlimit : Nat
  d_rt_spc_softlimit : Nat
  d_rt_space : Nat
  d_rt_spc_timer : Nat
  d_rt_spc_warns : Nat
deriving DecidableEq

/-- Modelled from the spec: `struct kqid`, an identity: the id in the kernel's
id space and the portable quota type (declared in the quota header). -/
structure kqid where
  val : Nat
  type : Int
deriving DecidableEq

/-- Modelled from the spec: the fields of `struct xfs_inode` that the quota
operations read from a quota system file. -/
structure xfs_inode where
  i_ino : Nat
  i_nblocks : Nat
  if_nextents : Nat
deriving DecidableEq

/-- Modelled from the spec: `struct xfs_quota_limits`; only the default timer
`time` (a signed 64-bit `time64_t`) is read here. -/
structure xfs_quota_limits where
  time : Int
deriving DecidableEq

/-- Modelled from the spec: `struct xfs_def_quota`, the default limits of one
quota type. -/
structure xfs_def_quota where
  blk : xfs_quota_limits
  ino : xfs_quota_limits
  rtb : xfs_quota_limits
deriving DecidableEq

/-- Modelled from the spec: the fields of `struct xfs_quotainfo` used here: the
resident-record counter `qi_dquots`, a 32-bit `int` held as its bit pattern,
and the three default-limit records. -/
structure xfs_quotainfo where
  qi_dquots : Nat
  qi_usr_default : xfs_def_quota
  qi_grp_default : xfs_def_quota
  qi_prj_default : xfs_def_quota
deriving DecidableEq

/-- Modelled from the spec: the fields of `struct xfs_mount` used here.
`m_quotainfo` is a pointer, `none` when it is `NULL`. -/
structure xfs_mount where
  m_qflags : Nat
  m_quotainfo : Option xfs_quotainfo
deriving DecidableEq

/-- Modelled from the spec: `struct super_block`: the mount flags and the XFS
mount reached through `XFS_M(sb)`. -/
structure super_block where
  s_flags : Nat
  s_fs_info : xfs_mount
deriving DecidableEq

/-- Modelled from the spec: `struct user_namespace`, the id mapping of a
namespace: `map_id_up` takes a kernel id to the id seen in the namespace,
`map_id_down` takes an id of the namespace to the kernel id, per quota type. -/
structure user_namespace where
  map_id_up : Int → Nat → Nat
  map_id_down : Int → Nat → Nat

/-- Modelled from the spec: `init_user_ns`, the initial namespace, which maps
every id to itself. -/
def init_user_ns : user_namespace := ⟨fun _ id => id, fun _ id => id⟩

/-- Modelled from the spec: `from_kqid(ns, qid)`, the id of `qid` as seen in
namespace `ns` (translation towards the engine id). -/
def from_kqid (ns : user_namespace) (qid : kqid) : Nat :=
  ns.map_id_up qid.type qid.val

/-- Modelled from the spec: `make_kqid(ns, type, id)`, the identity of the given
type whose id is `id` of namespace `ns`. -/
def make_kqid (ns : user_namespace) (type : Int) (id : Nat) : kqid :=
  ⟨ns.map_id_down type id, type⟩

/-- Modelled from the spec: `XFS_M(sb)`, the XFS mount of a super block. -/
def XFS_M (sb : super_block) : xfs_mount := sb.s_fs_info

/-- Modelled from the spec: `sb_rdonly(sb)`, whether the filesystem is mounted
read-only. -/
def sb_rdonly (sb : super_block) : Bool := sb.s_flags &&& SB_RDONLY != 0

/-- Modelled from the spec: `XFS_IS_QUOTA_ON(mp)`: accounting is on for at least
one of the three types. -/
def XFS_IS_QUOTA_ON (mp : xfs_mount) : Bool := mp.m_qflags &&& XFS_ALL_QUOTA_ACCT != 0

/-- Modelled from the spec: `XFS_IS_UQUOTA_ON(mp)`: user accounting is on. -/
def XFS_IS_UQUOTA_ON (mp : xfs_mount) : Bool := mp.m_qflags &&& XFS_UQUOTA_ACCT != 0

/-- Modelled from the spec: `XFS_IS_GQUOTA_ON(mp)`: group accounting is on. -/
def XFS_IS_GQUOTA_ON (mp : xfs_mount) : Bool := mp.m_qflags &&& XFS_GQUOTA_ACCT != 0

/-- Modelled from the spec: `XFS_IS_PQUOTA_ON(mp)`: project accounting is on. -/
def XFS_IS_PQUOTA_ON (mp : xfs_mount) : Bool := mp.m_qflags &&& XFS_PQUOTA_ACCT != 0

/-- Modelled from the spec: `XFS_IS_UQUOTA_ENFORCED(mp)`: user limits are
enforced. -/
def XFS_IS_UQUOTA_ENFORCED (mp : xfs_mount) : Bool := mp.m_qflags &&& XFS_UQUOTA_ENFD != 0

/-- Modelled from the spec: `XFS_IS_GQUOTA_ENFORCED(mp)`: group limits are
enforced. -/
def XFS_IS_GQUOTA_ENFORCED (mp : xfs_mount) : Bool := mp.m_qflags &&& XFS_GQUOTA_ENFD != 0

/-- Modelled from the spec: `XFS_IS_PQUOTA_ENFORCED(mp)`: project limits are
enforced. -/
def XFS_IS_PQUOTA_ENFORCED (mp : xfs_mount) : Bool := mp.m_qflags &&& XFS_PQUOTA_ENFD != 0

/-- Modelled from the spec: `xfs_get_defquota(qi, type)`, the default-limit
record of the engine type; `none` for a value that is no engine type. -/
def xfs_get_defquota (qi : xfs_quotainfo) (type : Nat) : Option xfs_def_quota :=
  if type = XFS_DQTYPE_USER then some qi.qi_usr_default
  else if type = XFS_DQTYPE_GROUP then some qi.qi_grp_default
  else if type = XFS_DQTYPE_PROJ then some qi.qi_prj_default
  else none

/-! ## The engine boundary -/

/-- One call made to the quota engine, with its arguments. -/
inductive Call where
  | qino_load (type : Nat)
  | irele (ip : xfs_inode)
  | scall_setqlim (id : Nat) (type : Nat) (newlim : qc_dqblk)
  | scall_quotaon (flags : Nat)
  | scall_quotaoff (flags : Nat)
  | scall_trunc_qfiles (flags : Nat)
  | scall_getquota (id : Nat) (type : Nat)
  | scall_getquota_next (id : Nat) (type : Nat)
deriving DecidableEq

/-- The quota engine as seen from the operations: each function takes the
engine state and the arguments of the C function and gives the C result, the
values written through out-pointers, and the next engine state. -/
structure Engine (W : Type) where
  xfs_qm_qino_load : W → xfs_mount → Nat → Int × xfs_inode × W
  xfs_irele : W → xfs_inode → W
  xfs_qm_scall_setqlim : W → xfs_mount → Nat → Nat → qc_dqblk → Int × W
  xfs_qm_scall_quotaon : W → xfs_mount → Nat → Int × W
  xfs_qm_scall_quotaoff : W → xfs_mount → Nat → Int × W
  xfs_qm_scall_trunc_qfiles : W → xfs_mount → Nat → Int × W
  xfs_qm_scall_getquota : W → xfs_mount → Nat → Nat → qc_dqblk → Int × qc_dqblk × W
  xfs_qm_scall_getquota_next : W → xfs_mount → Nat → Nat → qc_dqblk → Int × Nat × qc_dqblk × W

/-- The engine state together with the trace of the engine calls made so far,
oldest first. -/
structure Sys (W : Type) where
  world : W
  trace : List Call

variable {W : Type}

/-- The system after one engine call `c` that left the engine in state `w`. -/
def Sys.log (s : Sys W) (w : W) (c : Call) : Sys W :=
  ⟨w, s.trace ++ [c]⟩

/-- The C cast `(u32)` of a signed 64-bit value. -/
def cast_u32 (t : Int) : Nat := (t % 2 ^ 32).toNat

/-- The all-zero `struct qc_type_state`. -/
def qc_type_state_zero : qc_type_state := ⟨0, 0, 0, 0, 0, 0, 0, 0, 0, 0⟩

/-- The all-zero `struct qc_state`, the result of `memset(state, 0, sizeof(*state))`. -/
def qc_state_zero : qc_state :=
  ⟨0, qc_type_state_zero, qc_type_state_zero, qc_type_state_zero⟩

/-! ## The operations of `xfs_quotaops.c` -/

/-- The function `xfs_qm_fill_state`: the result is `none` when the C code
dereferences a null pointer (`mp->m_quotainfo` or the default-limit record),
otherwise the returned error, the type state written through `tstate` and the
system after the engine calls. -/
def xfs_qm_fill_state (E : Engine W) (s : Sys W) (tstate : qc_type_state)
    (mp : xfs_mount) (type : Nat) : Option (Int × qc_type_state × Sys W) :=
  let r := E.xfs_qm_qino_load s.world mp type
  let error := r.1
  let ip := r.2.1
  let s1 := s.log r.2.2 (Call.qino_load type)
  if error ≠ 0 then
    let tstate := { tstate with ino := NULLFSINO }
    some (if error ≠ -ENOENT then error else 0, tstate, s1)
  else
    match mp.m_quotainfo.bind (fun qi => xfs_get_defquota qi type) with
    | none => none
    | some defq =>
      let tstate := { tstate with ino := ip.i_ino }
      let tstate := { tstate with flags := tstate.flags ||| QCI_SYSFILE }
      let tstate := { tstate with blocks := ip.i_nblocks }
      let tstate := { tstate with nextents := ip.if_nextents }
      let tstate := { tstate with spc_timelimit := cast_u32 defq.blk.time }
      let tstate := { tstate with ino_timelimit := cast_u32 defq.ino.time }
      let tstate := { tstate with rt_spc_timelimit := cast_u32 defq.rtb.time }
      let tstate := { tstate with spc_warnlimit := 0 }
      let tstate := { tstate with ino_warnlimit := 0 }
      let tstate := { tstate with rt_spc_warnlimit := 0 }
      let s2 := s1.log (E.xfs_irele s1.world ip) (Call.irele ip)
      some (0, tstate, s2)

/-- The statement `tstate.flags |= bit`. -/
def qc_type_state.or_flags (t : qc_type_state) (bit : Nat) : qc_type_state :=
  { t with flags := t.flags ||| bit }

/-- The function `xfs_fs_get_quota_state`.  The incoming contents of `*state`
are overwritten by the `memset`; the result is `none` when the C code
dereferences a null `mp->m_quotainfo`. -/
def xfs_fs_get_quota_state (E : Engine W) (s : Sys W) (sb : super_block)
    (_state : qc_state) : Option (Int × qc_state × Sys W) :=
  let mp := XFS_M sb
  let state := qc_state_zero
  if !XFS_IS_QUOTA_ON mp then some (0, state, s)
  else
    match mp.m_quotainfo with
    | none => none
    | some q =>
      let state := { state with s_incoredqs := q.qi_dquots % 2 ^ 32 }
      let state := if XFS_IS_UQUOTA_ON mp then
        { state with s_state_USRQUOTA := state.s_state_USRQUOTA.or_flags QCI_ACCT_ENABLED }
        else state
      let state := if XFS_IS_UQUOTA_ENFORCED mp then
        { state with s_state_USRQUOTA := state.s_state_USRQUOTA.or_flags QCI_LIMITS_ENFORCED }
        else state
      let state := if XFS_IS_GQUOTA_ON mp then
        { state with s_state_GRPQUOTA := state.s_state_GRPQUOTA.or_flags QCI_ACCT_ENABLED }
        else state
      let state := if XFS_IS_GQUOTA_ENFORCED mp then
        { state with s_state_GRPQUOTA := state.s_state_GRPQUOTA.or_flags QCI_LIMITS_ENFORCED }
        else state
      let state := if XFS_IS_PQUOTA_ON mp then
        { state with s_state_PRJQUOTA := state.s_state_PRJQUOTA.or_flags QCI_ACCT_ENABLED }
        else state
      let state := if XFS_IS_PQUOTA_ENFORCED mp then
        { state with s_state_PRJQUOTA := state.s_state_PRJQUOTA.or_flags QCI_LIMITS_ENFORCED }
        else state
      match xfs_qm_fill_state E s state.s_state_USRQUOTA mp XFS_DQTYPE_USER with
      | none => none
      | some (error, t, s1) =>
        let state := { state with s_state_USRQUOTA := t }
        if error ≠ 0 then some (error, state, s1)
        else
          match xfs_qm_fill_state E s1 state.s_state_GRPQUOTA mp XFS_DQTYPE_GROUP with
          | none => none
          | some (error, t, s2) =>
            let state := { state with s_state_GRPQUOTA := t }
            if error ≠ 0 then some (error, state, s2)
            else
              match xfs_qm_fill_state E s2 state.s_state_PRJQUOTA mp XFS_DQTYPE_PROJ with
              | none => none
              | some (error, t, s3) =>
                let state := { state with s_state_PRJQUOTA := t }
                if error ≠ 0 then some (error, state, s3)
                else some (0, state, s3)

/-- The function `xfs_quota_type`. -/
def xfs_quota_type (type : Int) : Nat :=
  if type = USRQUOTA then XFS_DQTYPE_USER
  else if type = GRPQUOTA then XFS_DQTYPE_GROUP
  else XFS_DQTYPE_PROJ

/-- The macro `XFS_QC_SETINFO_MASK`, defined in the source as `(QC_TIMER_MASK)`. -/
def XFS_QC_SETINFO_MASK : Nat := QC_TIMER_MASK

/-- The function `xfs_fs_set_info`.  `newlim` is the indeterminate initial
contents of the local `struct qc_dqblk newlim`; the result is the returned
`int` and the system after the engine calls. -/
def xfs_fs_set_info (E : Engine W) (s : Sys W) (sb : super_block) (type : Int)
    (info : qc_info) (newlim : qc_dqblk) : Int × Sys W :=
  let mp := XFS_M sb
  if sb_rdonly sb then (-EROFS, s)
  else if !XFS_IS_QUOTA_ON mp then (-ENOSYS, s)
  else if info.i_fieldmask &&& not32 XFS_QC_SETINFO_MASK ≠ 0 then (-EINVAL, s)
  else if info.i_fieldmask &&& XFS_QC_SETINFO_MASK = 0 then (0, s)
  else
    let newlim := { newlim with d_fieldmask := info.i_fieldmask }
    let newlim := { newlim with d_spc_timer := info.i_spc_timelimit }
    let newlim := { newlim with d_ino_timer := info.i_ino_timelimit }
    let newlim := { newlim with d_rt_spc_timer := info.i_rt_spc_timelimit }
    let newlim := { newlim with d_ino_warns := info.i_ino_warnlimit }
    let newlim := { newlim with d_spc_warns := info.i_spc_warnlimit }
    let newlim := { newlim with d_rt_spc_warns := info.i_rt_spc_warnlimit }
    let r := E.xfs_qm_scall_setqlim s.world mp 0 (xfs_quota_type type) newlim
    (r.1, s.log r.2 (Call.scall_setqlim 0 (xfs_quota_type type) newlim))

/-- The function `xfs_quota_flags`. -/
def xfs_quota_flags (uflags : Nat) : Nat :=
  let flags := 0
  let flags := if uflags &&& FS_QUOTA_UDQ_ACCT ≠ 0 then flags ||| XFS_UQUOTA_ACCT else flags
  let flags := if uflags &&& FS_QUOTA_PDQ_ACCT ≠ 0 then flags ||| XFS_PQUOTA_ACCT else flags
  let flags := if uflags &&& FS_QUOTA_GDQ_ACCT ≠ 0 then flags ||| XFS_GQUOTA_ACCT else flags
  let flags := if uflags &&& FS_QUOTA_UDQ_ENFD ≠ 0 then flags ||| XFS_UQUOTA_ENFD else flags
  let flags := if uflags &&& FS_QUOTA_GDQ_ENFD ≠ 0 then flags ||| XFS_GQUOTA_ENFD else flags
  let flags := if uflags &&& FS_QUOTA_PDQ_ENFD ≠ 0 then flags ||| XFS_PQUOTA_ENFD else flags
  flags

/-- The function `xfs_quota_enable`. -/
def xfs_quota_enable (E : Engine W) (s : Sys W) (sb : super_block) (uflags : Nat) :
    Int × Sys W :=
  let mp := XFS_M sb
  if sb_rdonly sb then (-EROFS, s)
  else if !XFS_IS_QUOTA_ON mp then (-ENOSYS, s)
  else
    let r := E.xfs_qm_scall_quotaon s.world mp (xfs_quota_flags uflags)
    (r.1, s.log r.2 (Call.scall_quotaon (xfs_quota_flags uflags)))

/-- The function `xfs_quota_disable`. -/
def xfs_quota_disable (E : Engine W) (s : Sys W) (sb : super_block) (uflags : Nat) :
    Int × Sys W :=
  let mp := XFS_M sb
  if sb_rdonly sb then (-EROFS, s)
  else if !XFS_IS_QUOTA_ON mp then (-ENOSYS, s)
  else
    let r := E.xfs_qm_scall_quotaoff s.world mp (xfs_quota_flags uflags)
    (r.1, s.log r.2 (Call.scall_quotaoff (xfs_quota_flags uflags)))

/-- The function `xfs_fs_rm_xquota`. -/
def xfs_fs_rm_xquota (E : Engine W) (s : Sys W) (sb : super_block) (uflags : Nat) :
    Int × Sys W :=
  let mp := XFS_M sb
  let flags := 0
  if sb_rdonly sb then (-EROFS, s)
  else if XFS_IS_QUOTA_ON mp then (-EINVAL, s)
  else if uflags &&& not32 (FS_USER_QUOTA ||| FS_GROUP_QUOTA ||| FS_PROJ_QUOTA) ≠ 0 then
    (-EINVAL, s)
  else
    let flags := if uflags &&& FS_USER_QUOTA ≠ 0 then flags ||| XFS_QMOPT_UQUOTA else flags
    let flags := if uflags &&& FS_GROUP_QUOTA ≠ 0 then flags ||| XFS_QMOPT_GQUOTA else flags
    let flags := if uflags &&& FS_PROJ_QUOTA ≠ 0 then flags ||| XFS_QMOPT_PQUOTA else flags
    let r := E.xfs_qm_scall_trunc_qfiles s.world mp flags
    (r.1, s.log r.2 (Call.scall_trunc_qfiles flags))

/-- The function `xfs_fs_get_dqblk`: the returned `int`, the record behind
`qdq` and the system after the engine calls. -/
def xfs_fs_get_dqblk (E : Engine W) (s : Sys W) (sb : super_block) (qid : kqid)
    (qdq : qc_dqblk) : Int × qc_dqblk × Sys W :=
  let mp := XFS_M sb
  if !XFS_IS_QUOTA_ON mp then (-ENOSYS, qdq, s)
  else
    let id := from_kqid init_user_ns qid
    let r := E.xfs_qm_scall_getquota s.world mp id (xfs_quota_type qid.type) qdq
    (r.1, r.2.1, s.log r.2.2 (Call.scall_getquota id (xfs_quota_type qid.type)))

/-- The function `xfs_fs_get_nextdqblk`: the returned `int`, the identity
behind `qid`, the record behind `qdq` and the system after the engine calls.
`current_user_ns` is the namespace that `current_user_ns()` returns. -/
def xfs_fs_get_nextdqblk (E : Engine W) (current_user_ns : user_namespace) (s : Sys W)
    (sb : super_block) (qid : kqid) (qdq : qc_dqblk) : Int × kqid × qc_dqblk × Sys W :=
  let mp := XFS_M sb
  if !XFS_IS_QUOTA_ON mp then (-ENOSYS, qid, qdq, s)
  else
    let id := from_kqid init_user_ns qid
    let r := E.xfs_qm_scall_getquota_next s.world mp id (xfs_quota_type qid.type) qdq
    let ret := r.1
    let id1 := r.2.1
    let s1 := s.log r.2.2.2 (Call.scall_getquota_next id (xfs_quota_type qid.type))
    if ret ≠ 0 then (ret, qid, r.2.2.1, s1)
    else (0, make_kqid current_user_ns qid.type id1, r.2.2.1, s1)

/-- The function `xfs_fs_set_dqblk`. -/
def xfs_fs_set_dqblk (E : Engine W) (s : Sys W) (sb : super_block) (qid : kqid)
    (qdq : qc_dqblk) : Int × Sys W :=
  let mp := XFS_M sb
  if sb_rdonly sb then (-EROFS, s)
  else if !XFS_IS_QUOTA_ON mp then (-ENOSYS, s)
  else
    let id := from_kqid init_user_ns qid
    let r := E.xfs_qm_scall_setqlim s.world mp id (xfs_quota_type qid.type) qdq
    (r.1, s.log r.2 (Call.scall_setqlim id (xfs_quota_type qid.type) qdq))

/-! ## A concrete engine for evaluating the operations -/

/-- An engine without state that answers every call with the given result and
loads the system file of every type as inode 128 with 8 blocks in 1 extent. -/
def constEngine (ret : Int) : Engine Unit where
  xfs_qm_qino_load := fun w _ _ => (ret, ⟨128, 8, 1⟩, w)
  xfs_irele := fun w _ => w
  xfs_qm_scall_setqlim := fun w _ _ _ _ => (ret, w)
  xfs_qm_scall_quotaon := fun w _ _ => (ret, w)
  xfs_qm_scall_quotaoff := fun w _ _ => (ret, w)
  xfs_qm_scall_trunc_qfiles := fun w _ _ => (ret, w)
  xfs_qm_scall_getquota := fun w _ _ _ qdq => (ret, qdq, w)
  xfs_qm_scall_getquota_next := fun w _ id _ qdq => (ret, id, qdq, w)

/-- The system before any engine call. -/
def sys0 : Sys Unit := ⟨(), []⟩

/-- A `struct qc_dqblk` with every field zero. -/
def qc_dqblk_zero : qc_dqblk := ⟨0, 0, 0, 0, 0, 0, 0, 0, 0, 0, 0, 0, 0, 0, 0, 0⟩

/-- A super block with mount flags `s_flags`, quota flags `m_qflags` and no
quota info attached. -/
def mkSb (s_flags m_qflags : Nat) : super_block := ⟨s_flags, ⟨m_qflags, none⟩⟩

/-! ## Bit-mask facts -/

/-- A bit of the 32-bit complement is set exactly when it is one of the low 32
bits and is clear in the operand. -/
theorem testBit_not32 (x i : Nat) :
    (not32 x).testBit i = (decide (i < 32) && !x.testBit i) := by
  unfold not32
  rw [Nat.testBit_xor, Nat.testBit_two_pow_sub_one, Nat.testBit_mod_two_pow]
  cases decide (i < 32) <;> cases x.testBit i <;> rfl

/-- For a 32-bit word `m`, the C test `m & ~M` is zero exactly when every bit of
`m` is a bit of `M`. -/
theorem and_not32_eq_zero_iff (m M : Nat) (hm : m < 2 ^ 32) :
    m &&& not32 M = 0 ↔ m &&& M = m := by
  constructor
  · intro h
    apply Nat.eq_of_testBit_eq
    intro i
    have hi : (m &&& not32 M).testBit i = false := by rw [h]; exact Nat.zero_testBit i
    rw [Nat.testBit_and, testBit_not32] at hi
    rw [Nat.testBit_and]
    by_cases h32 : i < 32
    · simp only [h32, decide_True, Bool.true_and] at hi
      revert hi
      cases m.testBit i <;> cases M.testBit i <;> simp
    · have hlt : m < 2 ^ i :=
        lt_of_lt_of_le hm (Nat.pow_le_pow_right (by decide) (Nat.le_of_not_lt h32))
      rw [Nat.testBit_lt_two_pow hlt]
      rfl
  · intro h
    apply Nat.eq_of_testBit_eq
    intro i
    have hi : (m &&& M).testBit i = m.testBit i := by rw [h]
    rw [Nat.testBit_and] at hi
    rw [Nat.testBit_and, testBit_not32, Nat.zero_testBit]
    revert hi
    cases m.testBit i <;> cases M.testBit i <;> simp

/-- A mask all of whose bits lie in `M` is at most `M`. -/
theorem le_of_and_eq_self {m M : Nat} (h : m &&& M = m) : m ≤ M := by
  rw [← h]
  exact Nat.and_le_right

/-! ## Guards -/

/-- C1: on a read-only filesystem each of the five mutation operations
(`xfs_fs_set_info`, `xfs_quota_enable`, `xfs_quota_disable`, `xfs_fs_rm_xquota`,
`xfs_fs_set_dqblk`) returns `-EROFS` and leaves the system, hence the trace of
engine calls, as it was, whatever the quota flags of the mount, the field mask,
the flag word, the type mask, the identity and the limits are. -/
theorem readonly_mutation_returns_EROFS (E : Engine W) (s : Sys W) (sb : super_block)
    (type : Int) (info : qc_info) (newlim : qc_dqblk) (uflags : Nat) (qid : kqid)
    (qdq : qc_dqblk) (hro : sb_rdonly sb = true) :
    xfs_fs_set_info E s sb type info newlim = (-EROFS, s) ∧
    xfs_quota_enable E s sb uflags = (-EROFS, s) ∧
    xfs_quota_disable E s sb uflags = (-EROFS, s) ∧
    xfs_fs_rm_xquota E s sb uflags = (-EROFS, s) ∧
    xfs_fs_set_dqblk E s sb qid qdq = (-EROFS, s) := by
  simp [xfs_fs_set_info, xfs_quota_enable, xfs_quota_disable, xfs_fs_rm_xquota,
    xfs_fs_set_dqblk, hro]

/-- Witness of C1: a read-only mount with quota off, a field mask and a type
mask with every bit set. -/
theorem readonly_mutation_returns_EROFS_witness :
    sb_rdonly (mkSb 1 0) = true ∧
    (xfs_fs_set_info (constEngine 0) sys0 (mkSb 1 0) 7 ⟨0xFFFFFFFF, 0, 1, 2, 3, 4, 5, 6⟩
        qc_dqblk_zero = (-EROFS, sys0) ∧
      xfs_quota_enable (constEngine 0) sys0 (mkSb 1 0) 0xFFFFFFFF = (-EROFS, sys0) ∧
      xfs_quota_disable (constEngine 0) sys0 (mkSb 1 0) 0xFFFFFFFF = (-EROFS, sys0) ∧
      xfs_fs_rm_xquota (constEngine 0) sys0 (mkSb 1 0) 0xFFFFFFFF = (-EROFS, sys0) ∧
      xfs_fs_set_dqblk (constEngine 0) sys0 (mkSb 1 0) ⟨1000, 1⟩ qc_dqblk_zero
        = (-EROFS, sys0)) :=
  ⟨by decide, readonly_mutation_returns_EROFS (constEngine 0) sys0 (mkSb 1 0) 7
    ⟨0xFFFFFFFF, 0, 1, 2, 3, 4, 5, 6⟩ qc_dqblk_zero 0xFFFFFFFF ⟨1000, 1⟩ qc_dqblk_zero
    (by decide)⟩

/-- C2: when accounting is on for none of the three types (`XFS_IS_QUOTA_ON` is
false), `xfs_fs_set_info`, `xfs_quota_enable`, `xfs_quota_disable` and
`xfs_fs_set_dqblk` on a writable filesystem, and `xfs_fs_get_dqblk` and
`xfs_fs_get_nextdqblk` on any filesystem, return `-ENOSYS` for every argument,
leave the system and its trace of engine calls as they were, and
`xfs_fs_get_nextdqblk` leaves the caller's identity (and record) unchanged. -/
theorem quota_off_returns_ENOSYS (E : Engine W) (ns : user_namespace) (s : Sys W)
    (sb : super_block) (type : Int) (info : qc_info) (newlim : qc_dqblk) (uflags : Nat)
    (qid : kqid) (qdq : qc_dqblk) (hoff : XFS_IS_QUOTA_ON (XFS_M sb) = false) :
    (sb_rdonly sb = false →
      xfs_fs_set_info E s sb type info newlim = (-ENOSYS, s) ∧
      xfs_quota_enable E s sb uflags = (-ENOSYS, s) ∧
      xfs_quota_disable E s sb uflags = (-ENOSYS, s) ∧
      xfs_fs_set_dqblk E s sb qid qdq = (-ENOSYS, s)) ∧
    xfs_fs_get_dqblk E s sb qid qdq = (-ENOSYS, qdq, s) ∧
    xfs_fs_get_nextdqblk E ns s sb qid qdq = (-ENOSYS, qid, qdq, s) := by
  refine ⟨fun hrw => ?_, ?_, ?_⟩
  · simp [xfs_fs_set_info, xfs_quota_enable, xfs_quota_disable, xfs_fs_set_dqblk, hrw, hoff]
  · simp [xfs_fs_get_dqblk, hoff]
  · simp [xfs_fs_get_nextdqblk, hoff]

/-- Witness of C2: a writable mount whose quota flags hold enforcement and
check bits but no accounting bit. -/
theorem quota_off_returns_ENOSYS_witness :
    XFS_IS_QUOTA_ON (XFS_M (mkSb 0 0x0002)) = false ∧ sb_rdonly (mkSb 0 0x0002) = false ∧
    (xfs_fs_set_info (constEngine 0) sys0 (mkSb 0 0x0002) 0 ⟨64, 0, 1, 2, 3, 4, 5, 6⟩
        qc_dqblk_zero = (-ENOSYS, sys0) ∧
      xfs_quota_enable (constEngine 0) sys0 (mkSb 0 0x0002) 3 = (-ENOSYS, sys0) ∧
      xfs_quota_disable (constEngine 0) sys0 (mkSb 0 0x0002) 3 = (-ENOSYS, sys0) ∧
      xfs_fs_set_dqblk (constEngine 0) sys0 (mkSb 0 0x0002) ⟨1000, 1⟩ qc_dqblk_zero
        = (-ENOSYS, sys0)) ∧
    xfs_fs_get_dqblk (constEngine 0) sys0 (mkSb 0 0x0002) ⟨1000, 1⟩ qc_dqblk_zero
      = (-ENOSYS, qc_dqblk_zero, sys0) ∧
    xfs_fs_get_nextdqblk (constEngine 0) init_user_ns sys0 (mkSb 0 0x0002) ⟨1000, 1⟩
      qc_dqblk_zero = (-ENOSYS, ⟨1000, 1⟩, qc_dqblk_zero, sys0) :=
  have h := quota_off_returns_ENOSYS (constEngine 0) init_user_ns sys0 (mkSb 0 0x0002) 0
    ⟨64, 0, 1, 2, 3, 4, 5, 6⟩ qc_dqblk_zero 3 ⟨1000, 1⟩ qc_dqblk_zero (by decide)
  ⟨by decide, by decide, h.1 (by decide), h.2.1, h.2.2⟩

/-- C3: on a writable filesystem with accounting on for at least one type,
`xfs_fs_rm_xquota` fails for every type mask, including a mask that does not
name the active type and a mask with out-of-range bits, and makes no engine
call.  The errno the source returns at this guard is `-EINVAL`. -/
theorem rm_xquota_fails_when_quota_on (E : Engine W) (s : Sys W) (sb : super_block)
    (uflags : Nat) (hrw : sb_rdonly sb = false) (hon : XFS_IS_QUOTA_ON (XFS_M sb) = true) :
    xfs_fs_rm_xquota E s sb uflags = (-EINVAL, s) := by
  simp [xfs_fs_rm_xquota, hrw, hon]

/-- Witness of C3: group accounting is on and the mask names the user type
only. -/
theorem rm_xquota_fails_when_quota_on_witness :
    sb_rdonly (mkSb 0 XFS_GQUOTA_ACCT) = false ∧
    XFS_IS_QUOTA_ON (XFS_M (mkSb 0 XFS_GQUOTA_ACCT)) = true ∧
    xfs_fs_rm_xquota (constEngine 0) sys0 (mkSb 0 XFS_GQUOTA_ACCT) FS_USER_QUOTA
      = (-EINVAL, sys0) :=
  ⟨by decide, by decide, rm_xquota_fails_when_quota_on (constEngine 0) sys0
    (mkSb 0 XFS_GQUOTA_ACCT) FS_USER_QUOTA (by decide) (by decide)⟩

/-- C4: when the quota subsystem is globally off, `xfs_fs_get_quota_state`
returns 0 and the all-zero snapshot (`s_incoredqs = 0`; for each of the three
types no flag set and every timer, warn limit, inode number and counter zero),
whatever `*state` held before and whether or not quota info is attached, and it
leaves the system as it was: `xfs_qm_qino_load` is not called. -/
theorem get_quota_state_off_is_zero (E : Engine W) (s : Sys W) (sb : super_block)
    (state : qc_state) (hoff : XFS_IS_QUOTA_ON (XFS_M sb) = false) :
    xfs_fs_get_quota_state E s sb state =
      some (0, ⟨0, ⟨0, 0, 0, 0, 0, 0, 0, 0, 0, 0⟩, ⟨0, 0, 0, 0, 0, 0, 0, 0, 0, 0⟩,
        ⟨0, 0, 0, 0, 0, 0, 0, 0, 0, 0⟩⟩, s) := by
  simp [xfs_fs_get_quota_state, hoff, qc_state_zero, qc_type_state_zero]

/-- Witness of C4: quota off, a caller buffer that is not zero. -/
theorem get_quota_state_off_is_zero_witness :
    XFS_IS_QUOTA_ON (XFS_M (mkSb 0 0)) = false ∧
    xfs_fs_get_quota_state (constEngine 5) sys0 (mkSb 0 0)
        ⟨9, ⟨1, 2, 3, 4, 5, 6, 7, 8, 9, 10⟩, ⟨1, 2, 3, 4, 5, 6, 7, 8, 9, 10⟩,
          ⟨1, 2, 3, 4, 5, 6, 7, 8, 9, 10⟩⟩ =
      some (0, ⟨0, ⟨0, 0, 0, 0, 0, 0, 0, 0, 0, 0⟩, ⟨0, 0, 0, 0, 0, 0, 0, 0, 0, 0⟩,
        ⟨0, 0, 0, 0, 0, 0, 0, 0, 0, 0⟩⟩, sys0) :=
  ⟨by decide, get_quota_state_off_is_zero (constEngine 5) sys0 (mkSb 0 0) _ (by decide)⟩

/-! ## `xfs_fs_set_info` -/

/-- The limits record that `xfs_fs_set_info` hands to the engine: the local
`newlim` after the seven assignments. -/
theorem set_info_delegates (E : Engine W) (s : Sys W) (sb : super_block) (type : Int)
    (info : qc_info) (newlim : qc_dqblk) (hrw : sb_rdonly sb = false)
    (hon : XFS_IS_QUOTA_ON (XFS_M sb) = true)
    (hsub : info.i_fieldmask &&& XFS_QC_SETINFO_MASK = info.i_fieldmask)
    (hne : info.i_fieldmask ≠ 0) :
    xfs_fs_set_info E s sb type info newlim =
      ((E.xfs_qm_scall_setqlim s.world (XFS_M sb) 0 (xfs_quota_type type)
          { newlim with
            d_fieldmask := info.i_fieldmask
            d_spc_timer := info.i_spc_timelimit
            d_ino_timer := info.i_ino_timelimit
            d_rt_spc_timer := info.i_rt_spc_timelimit
            d_ino_warns := info.i_ino_warnlimit
            d_spc_warns := info.i_spc_warnlimit
            d_rt_spc_warns := info.i_rt_spc_warnlimit }).1,
        ⟨(E.xfs_qm_scall_setqlim s.world (XFS_M sb) 0 (xfs_quota_type type)
          { newlim with
            d_fieldmask := info.i_fieldmask
            d_spc_timer := info.i_spc_timelimit
            d_ino_timer := info.i_ino_timelimit
            d_rt_spc_timer := info.i_rt_spc_timelimit
            d_ino_warns := info.i_ino_warnlimit
            d_spc_warns := info.i_spc_warnlimit
            d_rt_spc_warns := info.i_rt_spc_warnlimit }).2,
          s.trace ++ [Call.scall_setqlim 0 (xfs_quota_type type)
            { newlim with
              d_fieldmask := info.i_fieldmask
              d_spc_timer := info.i_spc_timelimit
              d_ino_timer := info.i_ino_timelimit
              d_rt_spc_timer := info.i_rt_spc_timelimit
              d_ino_warns := info.i_ino_warnlimit
              d_spc_warns := info.i_spc_warnlimit
              d_rt_spc_warns := info.i_rt_spc_warnlimit }]⟩) := by
  have hlt : info.i_fieldmask < 2 ^ 32 :=
    lt_of_le_of_lt (le_of_and_eq_self hsub) (by decide)
  have hval : info.i_fieldmask &&& not32 XFS_QC_SETINFO_MASK = 0 :=
    (and_not32_eq_zero_iff _ _ hlt).mpr hsub
  have hnz : ¬ (info.i_fieldmask &&& XFS_QC_SETINFO_MASK = 0) := by
    rw [hsub]; exact hne
  simp [xfs_fs_set_info, hrw, hon, hval, hnz, Sys.log]

/-- A mask inside `M` is inside every mask that contains `M`. -/
theorem and_or_eq_self_of_and_eq_self {m M : Nat} (N : Nat) (h : m &&& M = m) :
    m &&& (M ||| N) = m := by
  apply Nat.eq_of_testBit_eq
  intro i
  have hi : (m &&& M).testBit i = m.testBit i := by rw [h]
  rw [Nat.testBit_and] at hi
  rw [Nat.testBit_and, Nat.testBit_or]
  revert hi
  cases m.testBit i <;> cases M.testBit i <;> cases N.testBit i <;> simp

/-- C5, as stated, fails: the space warn-count bit alone is a non-empty subset
of the six fields the claim allows, yet `xfs_fs_set_info` on a writable
filesystem with user quota on rejects it with `-EINVAL` and calls no engine
function, because `XFS_QC_SETINFO_MASK` is `QC_TIMER_MASK`. -/
theorem set_info_rejects_warn_bit :
    QC_SPC_WARNS ≠ 0 ∧
    QC_SPC_WARNS &&& (QC_TIMER_MASK ||| QC_WARNS_MASK) = QC_SPC_WARNS ∧
    sb_rdonly (mkSb 0 XFS_UQUOTA_ACCT) = false ∧
    XFS_IS_QUOTA_ON (XFS_M (mkSb 0 XFS_UQUOTA_ACCT)) = true ∧
    xfs_fs_set_info (constEngine 0) sys0 (mkSb 0 XFS_UQUOTA_ACCT) USRQUOTA
      ⟨QC_SPC_WARNS, 0, 0, 0, 0, 5, 0, 0⟩ qc_dqblk_zero = (-EINVAL, sys0) := by
  refine ⟨by decide, by decide, by decide, by decide, ?_⟩
  rfl

/-- C5, amended: for every field mask that is a non-empty subset of the three
timer bits (`QC_SPC_TIMER`, `QC_INO_TIMER`, `QC_RT_SPC_TIMER`), `xfs_fs_set_info`
on a writable filesystem with quota on does not stop at the validation: the
mask passes the `-EINVAL` test and the request goes to the engine as one
`xfs_qm_scall_setqlim` call carrying that mask, whose result is returned. -/
theorem set_info_timer_mask_passes (E : Engine W) (s : Sys W) (sb : super_block)
    (type : Int) (info : qc_info) (newlim : qc_dqblk) (hrw : sb_rdonly sb = false)
    (hon : XFS_IS_QUOTA_ON (XFS_M sb) = true)
    (hsub : info.i_fieldmask &&&
      (QC_SPC_TIMER ||| QC_INO_TIMER ||| QC_RT_SPC_TIMER) = info.i_fieldmask)
    (hne : info.i_fieldmask ≠ 0) :
    info.i_fieldmask &&& not32 XFS_QC_SETINFO_MASK = 0 ∧
    ∃ lim : qc_dqblk, lim.d_fieldmask = info.i_fieldmask ∧
      (xfs_fs_set_info E s sb type info newlim).1 =
        (E.xfs_qm_scall_setqlim s.world (XFS_M sb) 0 (xfs_quota_type type) lim).1 ∧
      (xfs_fs_set_info E s sb type info newlim).2.trace =
        s.trace ++ [Call.scall_setqlim 0 (xfs_quota_type type) lim] := by
  have hlt : info.i_fieldmask < 2 ^ 32 :=
    lt_of_le_of_lt (le_of_and_eq_self hsub) (by decide)
  refine ⟨(and_not32_eq_zero_iff _ _ hlt).mpr hsub, ?_⟩
  rw [set_info_delegates E s sb type info newlim hrw hon hsub hne]
  exact ⟨_, rfl, rfl, rfl⟩

/-- Witness of C5 amended: the inode timer and the realtime-space timer. -/
theorem set_info_timer_mask_passes_witness :
    sb_rdonly (mkSb 0 XFS_UQUOTA_ACCT) = false ∧
    XFS_IS_QUOTA_ON (XFS_M (mkSb 0 XFS_UQUOTA_ACCT)) = true ∧
    (QC_INO_TIMER ||| QC_RT_SPC_TIMER) &&&
      (QC_SPC_TIMER ||| QC_INO_TIMER ||| QC_RT_SPC_TIMER) = QC_INO_TIMER ||| QC_RT_SPC_TIMER ∧
    QC_INO_TIMER ||| QC_RT_SPC_TIMER ≠ 0 ∧
    ((QC_INO_TIMER ||| QC_RT_SPC_TIMER) &&& not32 XFS_QC_SETINFO_MASK = 0 ∧
      ∃ lim : qc_dqblk, lim.d_fieldmask = QC_INO_TIMER ||| QC_RT_SPC_TIMER ∧
        (xfs_fs_set_info (constEngine (-5)) sys0 (mkSb 0 XFS_UQUOTA_ACCT) GRPQUOTA
          ⟨QC_INO_TIMER ||| QC_RT_SPC_TIMER, 0, 0, 600, 700, 0, 0, 0⟩ qc_dqblk_zero).1 =
          ((constEngine (-5)).xfs_qm_scall_setqlim sys0.world
            (XFS_M (mkSb 0 XFS_UQUOTA_ACCT)) 0 (xfs_quota_type GRPQUOTA) lim).1 ∧
        (xfs_fs_set_info (constEngine (-5)) sys0 (mkSb 0 XFS_UQUOTA_ACCT) GRPQUOTA
          ⟨QC_INO_TIMER ||| QC_RT_SPC_TIMER, 0, 0, 600, 700, 0, 0, 0⟩ qc_dqblk_zero).2.trace =
          sys0.trace ++ [Call.scall_setqlim 0 (xfs_quota_type GRPQUOTA) lim]) :=
  ⟨by decide, by decide, by decide, by decide,
    set_info_timer_mask_passes (constEngine (-5)) sys0 (mkSb 0 XFS_UQUOTA_ACCT) GRPQUOTA
      ⟨QC_INO_TIMER ||| QC_RT_SPC_TIMER, 0, 0, 600, 700, 0, 0, 0⟩ qc_dqblk_zero
      (by decide) (by decide) (by decide) (by decide)⟩

/-- C6: on a writable filesystem with quota on, `xfs_fs_set_info` called with a
32-bit field mask that has a bit outside the timer and warn-count bits returns
`-EINVAL` and leaves the system and its trace of engine calls as they were, for
every type and every values record. -/
theorem set_info_rejects_foreign_bit (E : Engine W) (s : Sys W) (sb : super_block)
    (type : Int) (info : qc_info) (newlim : qc_dqblk) (hrw : sb_rdonly sb = false)
    (hon : XFS_IS_QUOTA_ON (XFS_M sb) = true) (h32 : info.i_fieldmask < 2 ^ 32)
    (hout : info.i_fieldmask &&& (QC_TIMER_MASK ||| QC_WARNS_MASK) ≠ info.i_fieldmask) :
    xfs_fs_set_info E s sb type info newlim = (-EINVAL, s) := by
  have hnsub : ¬ (info.i_fieldmask &&& XFS_QC_SETINFO_MASK = info.i_fieldmask) :=
    fun h => hout (and_or_eq_self_of_and_eq_self QC_WARNS_MASK h)
  have hval : ¬ (info.i_fieldmask &&& not32 XFS_QC_SETINFO_MASK = 0) :=
    fun h => hnsub ((and_not32_eq_zero_iff _ _ h32).mp h)
  simp [xfs_fs_set_info, hrw, hon, hval]

/-- Witness of C6: the space timer together with the inode soft-limit bit. -/
theorem set_info_rejects_foreign_bit_witness :
    sb_rdonly (mkSb 0 XFS_PQUOTA_ACCT) = false ∧
    XFS_IS_QUOTA_ON (XFS_M (mkSb 0 XFS_PQUOTA_ACCT)) = true ∧
    (65 : Nat) < 2 ^ 32 ∧ 65 &&& (QC_TIMER_MASK ||| QC_WARNS_MASK) ≠ 65 ∧
    xfs_fs_set_info (constEngine 0) sys0 (mkSb 0 XFS_PQUOTA_ACCT) PRJQUOTA
      ⟨65, 0, 10, 0, 0, 0, 0, 0⟩ qc_dqblk_zero = (-EINVAL, sys0) :=
  ⟨by decide, by decide, by decide, by decide,
    set_info_rejects_foreign_bit (constEngine 0) sys0 (mkSb 0 XFS_PQUOTA_ACCT) PRJQUOTA
      ⟨65, 0, 10, 0, 0, 0, 0, 0⟩ qc_dqblk_zero (by decide) (by decide) (by decide)
      (by decide)⟩

/-- C7: on a writable filesystem with quota on, `xfs_fs_set_info` called with
the empty field mask returns 0 and leaves the system and its trace of engine
calls as they were, for every type and every values record. -/
theorem set_info_empty_mask_is_noop (E : Engine W) (s : Sys W) (sb : super_block)
    (type : Int) (info : qc_info) (newlim : qc_dqblk) (hrw : sb_rdonly sb = false)
    (hon : XFS_IS_QUOTA_ON (XFS_M sb) = true) (hempty : info.i_fieldmask = 0) :
    xfs_fs_set_info E s sb type info newlim = (0, s) := by
  simp [xfs_fs_set_info, hrw, hon, hempty]

/-- Witness of C7: an empty mask with values filled in. -/
theorem set_info_empty_mask_is_noop_witness :
    sb_rdonly (mkSb 0 XFS_GQUOTA_ACCT) = false ∧
    XFS_IS_QUOTA_ON (XFS_M (mkSb 0 XFS_GQUOTA_ACCT)) = true ∧
    (⟨0, 0, 10, 20, 30, 1, 2, 3⟩ : qc_info).i_fieldmask = 0 ∧
    xfs_fs_set_info (constEngine (-5)) sys0 (mkSb 0 XFS_GQUOTA_ACCT) GRPQUOTA
      ⟨0, 0, 10, 20, 30, 1, 2, 3⟩ qc_dqblk_zero = (0, sys0) :=
  ⟨by decide, by decide, rfl,
    set_info_empty_mask_is_noop (constEngine (-5)) sys0 (mkSb 0 XFS_GQUOTA_ACCT) GRPQUOTA
      ⟨0, 0, 10, 20, 30, 1, 2, 3⟩ qc_dqblk_zero (by decide) (by decide) rfl⟩

/-- C8: on a writable filesystem with quota on, `xfs_fs_set_info` with a
non-empty field mask that passes the validation (every bit lies in
`XFS_QC_SETINFO_MASK`) makes exactly one engine call, `xfs_qm_scall_setqlim`,
with id 0, engine type `xfs_quota_type type` and a limits record whose field
mask is the caller's and whose three timers and three warn counts are the
caller's time limits and warn limits; it returns the engine's result and leaves
the engine in the state that call produced. -/
theorem set_info_calls_setqlim_once (E : Engine W) (s : Sys W) (sb : super_block)
    (type : Int) (info : qc_info) (newlim : qc_dqblk) (hrw : sb_rdonly sb = false)
    (hon : XFS_IS_QUOTA_ON (XFS_M sb) = true)
    (hvalid : info.i_fieldmask &&& XFS_QC_SETINFO_MASK = info.i_fieldmask)
    (hne : info.i_fieldmask ≠ 0) :
    ∃ lim : qc_dqblk,
      lim.d_fieldmask = info.i_fieldmask ∧
      lim.d_spc_timer = info.i_spc_timelimit ∧
      lim.d_ino_timer = info.i_ino_timelimit ∧
      lim.d_rt_spc_timer = info.i_rt_spc_timelimit ∧
      lim.d_spc_warns = info.i_spc_warnlimit ∧
      lim.d_ino_warns = info.i_ino_warnlimit ∧
      lim.d_rt_spc_warns = info.i_rt_spc_warnlimit ∧
      xfs_fs_set_info E s sb type info newlim =
        ((E.xfs_qm_scall_setqlim s.world (XFS_M sb) 0 (xfs_quota_type type) lim).1,
          ⟨(E.xfs_qm_scall_setqlim s.world (XFS_M sb) 0 (xfs_quota_type type) lim).2,
            s.trace ++ [Call.scall_setqlim 0 (xfs_quota_type type) lim]⟩) :=
  ⟨_, rfl, rfl, rfl, rfl, rfl, rfl, rfl,
    set_info_delegates E s sb type info newlim hrw hon hvalid hne⟩

/-- Witness of C8: the space timer for the group type, an engine that answers
`-5`. -/
theorem set_info_calls_setqlim_once_witness :
    sb_rdonly (mkSb 0 XFS_GQUOTA_ACCT) = false ∧
    XFS_IS_QUOTA_ON (XFS_M (mkSb 0 XFS_GQUOTA_ACCT)) = true ∧
    QC_SPC_TIMER &&& XFS_QC_SETINFO_MASK = QC_SPC_TIMER ∧ QC_SPC_TIMER ≠ 0 ∧
    ∃ lim : qc_dqblk,
      lim.d_fieldmask = QC_SPC_TIMER ∧ lim.d_spc_timer = 10 ∧ lim.d_ino_timer = 20 ∧
      lim.d_rt_spc_timer = 30 ∧ lim.d_spc_warns = 1 ∧ lim.d_ino_warns = 2 ∧
      lim.d_rt_spc_warns = 3 ∧
      xfs_fs_set_info (constEngine (-5)) sys0 (mkSb 0 XFS_GQUOTA_ACCT) GRPQUOTA
          ⟨QC_SPC_TIMER, 0, 10, 20, 30, 1, 2, 3⟩ qc_dqblk_zero =
        (((constEngine (-5)).xfs_qm_scall_setqlim sys0.world
            (XFS_M (mkSb 0 XFS_GQUOTA_ACCT)) 0 (xfs_quota_type GRPQUOTA) lim).1,
          ⟨((constEngine (-5)).xfs_qm_scall_setqlim sys0.world
              (XFS_M (mkSb 0 XFS_GQUOTA_ACCT)) 0 (xfs_quota_type GRPQUOTA) lim).2,
            sys0.trace ++ [Call.scall_setqlim 0 (xfs_quota_type GRPQUOTA) lim]⟩) :=
  ⟨by decide, by decide, by decide, by decide,
    set_info_calls_setqlim_once (constEngine (-5)) sys0 (mkSb 0 XFS_GQUOTA_ACCT) GRPQUOTA
      ⟨QC_SPC_TIMER, 0, 10, 20, 30, 1, 2, 3⟩ qc_dqblk_zero (by decide) (by decide)
      (by decide) (by decide)⟩

/-! ## `xfs_quota_flags`, `xfs_quota_enable`, `xfs_quota_disable` -/

/-- Masking with a mask `M` and then with a part `b` of `M` is masking with
`b`. -/
theorem and_and_of_sub (u M b : Nat) (h : M &&& b = b) : (u &&& M) &&& b = u &&& b := by
  rw [Nat.and_assoc, h]

/-- The flag translation reads the six low bits of the portable word only. -/
theorem quota_flags_low_bits (u : Nat) : xfs_quota_flags (u &&& 63) = xfs_quota_flags u := by
  unfold xfs_quota_flags
  rw [and_and_of_sub u 63 FS_QUOTA_UDQ_ACCT (by decide),
    and_and_of_sub u 63 FS_QUOTA_PDQ_ACCT (by decide),
    and_and_of_sub u 63 FS_QUOTA_GDQ_ACCT (by decide),
    and_and_of_sub u 63 FS_QUOTA_UDQ_ENFD (by decide),
    and_and_of_sub u 63 FS_QUOTA_GDQ_ENFD (by decide),
    and_and_of_sub u 63 FS_QUOTA_PDQ_ENFD (by decide)]

/-- The six low bits of a word form a number below 64. -/
theorem and_63_lt (u : Nat) : u &&& 63 < 64 :=
  Nat.lt_succ_of_le Nat.and_le_right

/-- The bit-for-bit correspondence, checked on the 64 six-bit words. -/
theorem quota_flags_bits_small : ∀ a < 64,
    ((xfs_quota_flags a &&& XFS_UQUOTA_ACCT ≠ 0 ↔ a &&& FS_QUOTA_UDQ_ACCT ≠ 0) ∧
      (xfs_quota_flags a &&& XFS_GQUOTA_ACCT ≠ 0 ↔ a &&& FS_QUOTA_GDQ_ACCT ≠ 0) ∧
      (xfs_quota_flags a &&& XFS_PQUOTA_ACCT ≠ 0 ↔ a &&& FS_QUOTA_PDQ_ACCT ≠ 0) ∧
      (xfs_quota_flags a &&& XFS_UQUOTA_ENFD ≠ 0 ↔ a &&& FS_QUOTA_UDQ_ENFD ≠ 0) ∧
      (xfs_quota_flags a &&& XFS_GQUOTA_ENFD ≠ 0 ↔ a &&& FS_QUOTA_GDQ_ENFD ≠ 0) ∧
      (xfs_quota_flags a &&& XFS_PQUOTA_ENFD ≠ 0 ↔ a &&& FS_QUOTA_PDQ_ENFD ≠ 0)) ∧
    xfs_quota_flags a &&& (XFS_UQUOTA_ACCT ||| XFS_GQUOTA_ACCT ||| XFS_PQUOTA_ACCT |||
      XFS_UQUOTA_ENFD ||| XFS_GQUOTA_ENFD ||| XFS_PQUOTA_ENFD) = xfs_quota_flags a := by
  decide

set_option maxRecDepth 100000 in
/-- The translation distributes over `|||` on the six-bit words. -/
theorem quota_flags_or_small : ∀ a < 64, ∀ b < 64,
    xfs_quota_flags (a ||| b) = xfs_quota_flags a ||| xfs_quota_flags b := by
  decide

/-- C9: for every portable flags word `u`, each of the six engine flags is set
in `xfs_quota_flags u` exactly when its portable bit is set in `u`, and no bit
other than these six is set in the result; hence two words that agree on the
six portable bits have the same translation, and the translation distributes
over bitwise OR. -/
theorem quota_flags_bit_for_bit (u : Nat) :
    ((xfs_quota_flags u &&& XFS_UQUOTA_ACCT ≠ 0 ↔ u &&& FS_QUOTA_UDQ_ACCT ≠ 0) ∧
      (xfs_quota_flags u &&& XFS_GQUOTA_ACCT ≠ 0 ↔ u &&& FS_QUOTA_GDQ_ACCT ≠ 0) ∧
      (xfs_quota_flags u &&& XFS_PQUOTA_ACCT ≠ 0 ↔ u &&& FS_QUOTA_PDQ_ACCT ≠ 0) ∧
      (xfs_quota_flags u &&& XFS_UQUOTA_ENFD ≠ 0 ↔ u &&& FS_QUOTA_UDQ_ENFD ≠ 0) ∧
      (xfs_quota_flags u &&& XFS_GQUOTA_ENFD ≠ 0 ↔ u &&& FS_QUOTA_GDQ_ENFD ≠ 0) ∧
      (xfs_quota_flags u &&& XFS_PQUOTA_ENFD ≠ 0 ↔ u &&& FS_QUOTA_PDQ_ENFD ≠ 0)) ∧
    xfs_quota_flags u &&& (XFS_UQUOTA_ACCT ||| XFS_GQUOTA_ACCT ||| XFS_PQUOTA_ACCT |||
      XFS_UQUOTA_ENFD ||| XFS_GQUOTA_ENFD ||| XFS_PQUOTA_ENFD) = xfs_quota_flags u ∧
    (∀ v : Nat,
      u &&& (FS_QUOTA_UDQ_ACCT ||| FS_QUOTA_GDQ_ACCT ||| FS_QUOTA_PDQ_ACCT |||
          FS_QUOTA_UDQ_ENFD ||| FS_QUOTA_GDQ_ENFD ||| FS_QUOTA_PDQ_ENFD) =
        v &&& (FS_QUOTA_UDQ_ACCT ||| FS_QUOTA_GDQ_ACCT ||| FS_QUOTA_PDQ_ACCT |||
          FS_QUOTA_UDQ_ENFD ||| FS_QUOTA_GDQ_ENFD ||| FS_QUOTA_PDQ_ENFD) →
      xfs_quota_flags u = xfs_quota_flags v) ∧
    (∀ v : Nat, xfs_quota_flags (u ||| v) = xfs_quota_flags u ||| xfs_quota_flags v) := by
  refine ⟨?_, ?_, ?_, ?_⟩
  · have h := (quota_flags_bits_small (u &&& 63) (and_63_lt u)).1
    rw [quota_flags_low_bits,
      and_and_of_sub u 63 FS_QUOTA_UDQ_ACCT (by decide),
      and_and_of_sub u 63 FS_QUOTA_PDQ_ACCT (by decide),
      and_and_of_sub u 63 FS_QUOTA_GDQ_ACCT (by decide),
      and_and_of_sub u 63 FS_QUOTA_UDQ_ENFD (by decide),
      and_and_of_sub u 63 FS_QUOTA_GDQ_ENFD (by decide),
      and_and_of_sub u 63 FS_QUOTA_PDQ_ENFD (by decide)] at h
    exact h
  · have h := (quota_flags_bits_small (u &&& 63) (and_63_lt u)).2
    rw [quota_flags_low_bits] at h
    exact h
  · intro v hv
    have h63 : (FS_QUOTA_UDQ_ACCT ||| FS_QUOTA_GDQ_ACCT ||| FS_QUOTA_PDQ_ACCT |||
        FS_QUOTA_UDQ_ENFD ||| FS_QUOTA_GDQ_ENFD ||| FS_QUOTA_PDQ_ENFD) = 63 := by decide
    rw [h63] at hv
    rw [← quota_flags_low_bits u, ← quota_flags_low_bits v, hv]
  · intro v
    rw [← quota_flags_low_bits (u ||| v), Nat.and_distrib_right,
      quota_flags_or_small _ (and_63_lt u) _ (and_63_lt v),
      quota_flags_low_bits, quota_flags_low_bits]

/-- Witness of C9: two words that differ in bits outside the six portable
flags. -/
theorem quota_flags_bit_for_bit_witness :
    xfs_quota_flags 0xFFFFFF45 = xfs_quota_flags 0x05 ∧
    xfs_quota_flags (0x11 ||| 0x22) = xfs_quota_flags 0x11 ||| xfs_quota_flags 0x22 :=
  ⟨(quota_flags_bit_for_bit 0xFFFFFF45).2.2.1 0x05 (by decide),
    (quota_flags_bit_for_bit 0x11).2.2.2 0x22⟩

/-- C10: on a writable filesystem with quota on, `xfs_quota_enable` with the
flags `FS_QUOTA_UDQ_ACCT | FS_QUOTA_UDQ_ENFD` makes exactly one engine call,
`xfs_qm_scall_quotaon`, whose flag argument is `XFS_UQUOTA_ACCT | XFS_UQUOTA_ENFD`,
which holds no group and no project bit, and returns the engine's result;
`xfs_quota_disable` hands `xfs_qm_scall_quotaoff` exactly `xfs_quota_flags uflags`
for every `uflags`, in one call, and returns the engine's result. -/
theorem enable_user_flags_only (E : Engine W) (s : Sys W) (sb : super_block)
    (uflags : Nat) (hrw : sb_rdonly sb = false) (hon : XFS_IS_QUOTA_ON (XFS_M sb) = true) :
    xfs_quota_enable E s sb (FS_QUOTA_UDQ_ACCT ||| FS_QUOTA_UDQ_ENFD) =
      ((E.xfs_qm_scall_quotaon s.world (XFS_M sb) (XFS_UQUOTA_ACCT ||| XFS_UQUOTA_ENFD)).1,
        ⟨(E.xfs_qm_scall_quotaon s.world (XFS_M sb) (XFS_UQUOTA_ACCT ||| XFS_UQUOTA_ENFD)).2,
          s.trace ++ [Call.scall_quotaon (XFS_UQUOTA_ACCT ||| XFS_UQUOTA_ENFD)]⟩) ∧
    (XFS_UQUOTA_ACCT ||| XFS_UQUOTA_ENFD) &&&
      (XFS_GQUOTA_ACCT ||| XFS_GQUOTA_ENFD ||| XFS_PQUOTA_ACCT ||| XFS_PQUOTA_ENFD) = 0 ∧
    xfs_quota_disable E s sb uflags =
      ((E.xfs_qm_scall_quotaoff s.world (XFS_M sb) (xfs_quota_flags uflags)).1,
        ⟨(E.xfs_qm_scall_quotaoff s.world (XFS_M sb) (xfs_quota_flags uflags)).2,
          s.trace ++ [Call.scall_quotaoff (xfs_quota_flags uflags)]⟩) := by
  have hf : xfs_quota_flags (FS_QUOTA_UDQ_ACCT ||| FS_QUOTA_UDQ_ENFD) =
      XFS_UQUOTA_ACCT ||| XFS_UQUOTA_ENFD := by decide
  refine ⟨?_, by decide, ?_⟩
  · simp [xfs_quota_enable, hrw, hon, hf, Sys.log]
  · simp [xfs_quota_disable, hrw, hon, Sys.log]

/-- Witness of C10: group accounting is on, the engine answers 0, and the
disable request names the group flags. -/
theorem enable_user_flags_only_witness :
    sb_rdonly (mkSb 0 XFS_GQUOTA_ACCT) = false ∧
    XFS_IS_QUOTA_ON (XFS_M (mkSb 0 XFS_GQUOTA_ACCT)) = true ∧
    (xfs_quota_enable (constEngine 0) sys0 (mkSb 0 XFS_GQUOTA_ACCT)
        (FS_QUOTA_UDQ_ACCT ||| FS_QUOTA_UDQ_ENFD)).2.trace = [Call.scall_quotaon 3] ∧
    (xfs_quota_disable (constEngine 0) sys0 (mkSb 0 XFS_GQUOTA_ACCT)
        (FS_QUOTA_GDQ_ACCT ||| FS_QUOTA_GDQ_ENFD)).2.trace = [Call.scall_quotaoff 0xC0] :=
  have h := enable_user_flags_only (constEngine 0) sys0 (mkSb 0 XFS_GQUOTA_ACCT)
    (FS_QUOTA_GDQ_ACCT ||| FS_QUOTA_GDQ_ENFD) (by decide) (by decide)
  ⟨by decide, by decide, by rw [h.1]; rfl, by rw [h.2.2]; rfl⟩

/-! ## `xfs_quota_type` and the per-identity operations -/

/-- C11: `xfs_quota_type` maps `USRQUOTA` to the user type, `GRPQUOTA` to the
group type and every other integer (`PRJQUOTA`, negative values, unrecognised
values) to the project type; it is a total function into the three engine
types and has no error result. -/
theorem quota_type_cases (type : Int) :
    xfs_quota_type USRQUOTA = XFS_DQTYPE_USER ∧
    xfs_quota_type GRPQUOTA = XFS_DQTYPE_GROUP ∧
    xfs_quota_type PRJQUOTA = XFS_DQTYPE_PROJ ∧
    xfs_quota_type (-1) = XFS_DQTYPE_PROJ ∧
    xfs_quota_type 3 = XFS_DQTYPE_PROJ ∧
    (type ≠ USRQUOTA → type ≠ GRPQUOTA → xfs_quota_type type = XFS_DQTYPE_PROJ) ∧
    (xfs_quota_type type = XFS_DQTYPE_USER ∨ xfs_quota_type type = XFS_DQTYPE_GROUP ∨
      xfs_quota_type type = XFS_DQTYPE_PROJ) := by
  refine ⟨by decide, by decide, by decide, by decide, by decide, ?_, ?_⟩
  · intro hu hg
    simp [xfs_quota_type, hu, hg]
  · unfold xfs_quota_type
    split_ifs <;> simp

/-- Witness of C11: the unrecognised value 77 maps to the project type. -/
theorem quota_type_cases_witness : xfs_quota_type 77 = XFS_DQTYPE_PROJ :=
  (quota_type_cases 77).2.2.2.2.2.1 (by decide) (by decide)

/-- C12: `xfs_fs_set_dqblk` does not look at the field mask: on a writable
filesystem with quota on, for every identity and every limits record, it makes
exactly one engine call, `xfs_qm_scall_setqlim`, with the id translated by
`from_kqid` against `init_user_ns`, the engine type `xfs_quota_type qid.type`
and the caller's record unmodified, and returns the engine's result. -/
theorem set_dqblk_delegates_unvalidated (E : Engine W) (s : Sys W) (sb : super_block)
    (qid : kqid) (qdq : qc_dqblk) (hrw : sb_rdonly sb = false)
    (hon : XFS_IS_QUOTA_ON (XFS_M sb) = true) :
    xfs_fs_set_dqblk E s sb qid qdq =
      ((E.xfs_qm_scall_setqlim s.world (XFS_M sb) (from_kqid init_user_ns qid)
          (xfs_quota_type qid.type) qdq).1,
        ⟨(E.xfs_qm_scall_setqlim s.world (XFS_M sb) (from_kqid init_user_ns qid)
            (xfs_quota_type qid.type) qdq).2,
          s.trace ++ [Call.scall_setqlim (from_kqid init_user_ns qid)
            (xfs_quota_type qid.type) qdq]⟩) := by
  simp [xfs_fs_set_dqblk, hrw, hon, Sys.log]

/-- Witness of C12: a record whose field mask has every bit set, which
`xfs_fs_set_info` would reject, goes to the engine as it is. -/
theorem set_dqblk_delegates_unvalidated_witness :
    sb_rdonly (mkSb 0 XFS_UQUOTA_ACCT) = false ∧
    XFS_IS_QUOTA_ON (XFS_M (mkSb 0 XFS_UQUOTA_ACCT)) = true ∧
    (xfs_fs_set_dqblk (constEngine (-7)) sys0 (mkSb 0 XFS_UQUOTA_ACCT) ⟨1000, GRPQUOTA⟩
        { qc_dqblk_zero with d_fieldmask := 0xFFFFFFFF }).2.trace =
      [Call.scall_setqlim 1000 XFS_DQTYPE_GROUP
        { qc_dqblk_zero with d_fieldmask := 0xFFFFFFFF }] ∧
    (xfs_fs_set_dqblk (constEngine (-7)) sys0 (mkSb 0 XFS_UQUOTA_ACCT) ⟨1000, GRPQUOTA⟩
        { qc_dqblk_zero with d_fieldmask := 0xFFFFFFFF }).1 = -7 :=
  have h := set_dqblk_delegates_unvalidated (constEngine (-7)) sys0
    (mkSb 0 XFS_UQUOTA_ACCT) ⟨1000, GRPQUOTA⟩
    { qc_dqblk_zero with d_fieldmask := 0xFFFFFFFF } (by decide) (by decide)
  ⟨by decide, by decide, by rw [h]; rfl, by rw [h]; rfl⟩

/-- C13: `xfs_fs_get_nextdqblk` with quota on makes one
`xfs_qm_scall_getquota_next` call with the id translated against `init_user_ns`
and the translated type.  If the engine fails, its error is returned and the
caller's identity is as it was.  If it succeeds with engine id `e`, 0 is
returned and the identity has the type of the request and the id that
`make_kqid` gives `e` in the caller's namespace; in both cases the limits
record is the one the engine wrote. -/
theorem get_nextdqblk_result (E : Engine W) (ns : user_namespace) (s : Sys W)
    (sb : super_block) (qid : kqid) (qdq : qc_dqblk)
    (hon : XFS_IS_QUOTA_ON (XFS_M sb) = true) :
    ((E.xfs_qm_scall_getquota_next s.world (XFS_M sb) (from_kqid init_user_ns qid)
          (xfs_quota_type qid.type) qdq).1 ≠ 0 →
      xfs_fs_get_nextdqblk E ns s sb qid qdq =
        ((E.xfs_qm_scall_getquota_next s.world (XFS_M sb) (from_kqid init_user_ns qid)
            (xfs_quota_type qid.type) qdq).1,
          qid,
          (E.xfs_qm_scall_getquota_next s.world (XFS_M sb) (from_kqid init_user_ns qid)
            (xfs_quota_type qid.type) qdq).2.2.1,
          ⟨(E.xfs_qm_scall_getquota_next s.world (XFS_M sb) (from_kqid init_user_ns qid)
              (xfs_quota_type qid.type) qdq).2.2.2,
            s.trace ++ [Call.scall_getquota_next (from_kqid init_user_ns qid)
              (xfs_quota_type qid.type)]⟩)) ∧
    ((E.xfs_qm_scall_getquota_next s.world (XFS_M sb) (from_kqid init_user_ns qid)
          (xfs_quota_type qid.type) qdq).1 = 0 →
      xfs_fs_get_nextdqblk E ns s sb qid qdq =
        (0,
          ⟨ns.map_id_down qid.type
              (E.xfs_qm_scall_getquota_next s.world (XFS_M sb) (from_kqid init_user_ns qid)
                (xfs_quota_type qid.type) qdq).2.1,
            qid.type⟩,
          (E.xfs_qm_scall_getquota_next s.world (XFS_M sb) (from_kqid init_user_ns qid)
            (xfs_quota_type qid.type) qdq).2.2.1,
          ⟨(E.xfs_qm_scall_getquota_next s.world (XFS_M sb) (from_kqid init_user_ns qid)
              (xfs_quota_type qid.type) qdq).2.2.2,
            s.trace ++ [Call.scall_getquota_next (from_kqid init_user_ns qid)
              (xfs_quota_type qid.type)]⟩)) := by
  constructor
  · intro h
    simp [xfs_fs_get_nextdqblk, hon, h, Sys.log]
  · intro h
    simp [xfs_fs_get_nextdqblk, hon, h, Sys.log, make_kqid]

/-! ## Iteration over the active identities -/

/-- Modelled from the spec: the answer of the engine's next-active query over
the finite collection `active` of active ids of one type: the least active id
greater than or equal to `id`, `none` (NotFound) when there is none. -/
def nextActive (active : List Nat) (id : Nat) : Option Nat :=
  (active.filter (fun a => decide (id ≤ a))).min?

/-- Modelled from the spec: the contract of an engine whose
`xfs_qm_scall_getquota_next`, for engine type `etype`, answers the next-active
query over `active`: in every engine state it returns 0 and the least active id
at or after the requested one, or `-ENOENT` when there is none. -/
def NextActiveContract (E : Engine W) (mp : xfs_mount) (etype : Nat)
    (active : List Nat) : Prop :=
  ∀ (w : W) (id : Nat) (qdq : qc_dqblk),
    (nextActive active id = none →
      (E.xfs_qm_scall_getquota_next w mp id etype qdq).1 = -ENOENT) ∧
    (∀ e, nextActive active id = some e →
      (E.xfs_qm_scall_getquota_next w mp id etype qdq).1 = 0 ∧
      (E.xfs_qm_scall_getquota_next w mp id etype qdq).2.1 = e)

/-- Modelled from the spec: an engine without state whose next-active query
answers over the active ids `active etype` of each engine type and writes the
record `record e` of the id it found; every other call answers 0. -/
def activeEngine (active : Nat → List Nat) (record : Nat → qc_dqblk) : Engine Unit :=
  { constEngine 0 with
    xfs_qm_scall_getquota_next := fun w _ id etype qdq =>
      match nextActive (active etype) id with
      | some e => (0, e, record e, w)
      | none => (-ENOENT, id, qdq, w) }

/-- The active ids of the example: 3, 7 and 20 for the group type, none for the
other types. -/
def groupActive (etype : Nat) : List Nat :=
  if etype = XFS_DQTYPE_GROUP then [3, 7, 20] else []

/-- The record of the example engine for id `e`: the id as the space in use. -/
def groupRecord (e : Nat) : qc_dqblk := { qc_dqblk_zero with d_space := e }

/-- Modelled from the spec: the caller-driven enumeration: call
`xfs_fs_get_nextdqblk` for `id`, stop at the first error, otherwise take the id
of the returned identity and go on from that id plus one.  The result is the
list of ids visited and the error that ended the loop, `none` when the `fuel`
calls allowed did not reach the end. -/
def enumerate (E : Engine W) (ns : user_namespace) (sb : super_block) (type : Int) :
    Nat → Sys W → Nat → qc_dqblk → List Nat × Option Int
  | 0, _, _, _ => ([], none)
  | fuel + 1, s, id, qdq =>
    let r := xfs_fs_get_nextdqblk E ns s sb ⟨id, type⟩ qdq
    if r.1 ≠ 0 then ([], some r.1)
    else
      let rest := enumerate E ns sb type fuel r.2.2.2 (r.2.1.val + 1) r.2.2.1
      (r.2.1.val :: rest.1, rest.2)

/-- The next-active query finds nothing exactly when no active id is at or
after the requested one. -/
theorem nextActive_eq_none_iff (active : List Nat) (id : Nat) :
    nextActive active id = none ↔ ∀ a ∈ active, a < id := by
  unfold nextActive
  rw [List.min?_eq_none_iff, List.filter_eq_nil_iff]
  constructor
  · intro h a ha
    have := h a ha
    simpa using this
  · intro h a ha
    have := h a ha
    simp only [decide_eq_true_eq]
    omega

/-- What the next-active query finds is the least active id at or after the
requested one. -/
theorem nextActive_eq_some_iff (active : List Nat) (id e : Nat) :
    nextActive active id = some e ↔
      (e ∈ active ∧ id ≤ e) ∧ ∀ a ∈ active, id ≤ a → e ≤ a := by
  unfold nextActive
  rw [List.min?_eq_some_iff']
  simp only [List.mem_filter, decide_eq_true_eq, and_imp]

/-- The example engine keeps the next-active contract for every type. -/
theorem activeEngine_contract (active : Nat → List Nat) (record : Nat → qc_dqblk)
    (mp : xfs_mount) (etype : Nat) :
    NextActiveContract (activeEngine active record) mp etype (active etype) := by
  intro w id qdq
  constructor
  · intro h
    simp [activeEngine, h]
  · intro e h
    simp [activeEngine, h]

/-- One step further leaves fewer active ids to visit. -/
theorem filter_succ_length_lt (active : List Nat) (id e : Nat) (he : e ∈ active)
    (hle : id ≤ e) :
    (active.filter (fun a => decide (e + 1 ≤ a))).length <
      (active.filter (fun a => decide (id ≤ a))).length := by
  have h1 : active.filter (fun a => decide (e + 1 ≤ a)) =
      (active.filter (fun a => decide (id ≤ a))).filter (fun a => decide (e + 1 ≤ a)) := by
    rw [List.filter_filter]
    apply List.filter_congr
    intro a _
    by_cases h : e + 1 ≤ a
    · have h2 : id ≤ a := by omega
      simp [h, h2]
    · simp [h]
  rw [h1, List.length_filter_lt_length_iff_exists]
  exact ⟨e, by simp [he, hle], by simp⟩

/-- The enumeration started at `id` in the initial namespace, given more calls
than there are active ids at or after `id`, ends with `-ENOENT` and has visited
exactly those ids in strictly increasing order. -/
theorem enumerate_from (E : Engine W) (sb : super_block) (type : Int)
    (active : List Nat) (hon : XFS_IS_QUOTA_ON (XFS_M sb) = true)
    (hE : NextActiveContract E (XFS_M sb) (xfs_quota_type type) active) :
    ∀ (fuel : Nat) (s : Sys W) (id : Nat) (qdq : qc_dqblk),
      (active.filter (fun a => decide (id ≤ a))).length < fuel →
      (enumerate E init_user_ns sb type fuel s id qdq).2 = some (-ENOENT) ∧
      List.Pairwise (fun a b => a < b) (enumerate E init_user_ns sb type fuel s id qdq).1 ∧
      ∀ a, a ∈ (enumerate E init_user_ns sb type fuel s id qdq).1 ↔ (a ∈ active ∧ id ≤ a) := by
  intro fuel
  induction fuel with
  | zero => intro s id qdq h; omega
  | succ n ih =>
    intro s id qdq hlen
    have hc := hE s.world id qdq
    have hfrom : from_kqid init_user_ns ⟨id, type⟩ = id := rfl
    have hmk : ∀ e : Nat, make_kqid init_user_ns type e = ⟨e, type⟩ := fun _ => rfl
    cases hnext : nextActive active id with
    | none =>
      have h1 := hc.1 hnext
      have hnone := (nextActive_eq_none_iff active id).mp hnext
      have hne : ¬ (-ENOENT : Int) = 0 := by decide
      simp only [enumerate, xfs_fs_get_nextdqblk, hon, hfrom, h1]
      simp only [Bool.not_true, Bool.false_eq_true, if_false, ne_eq, hne, not_false_eq_true,
        if_true, List.Pairwise.nil, List.not_mem_nil, true_and, false_iff, not_and]
      intro a ha
      have := hnone a ha
      omega
    | some e =>
      have h2 := hc.2 e hnext
      obtain ⟨⟨hmem, hle⟩, hmin⟩ := (nextActive_eq_some_iff active id e).mp hnext
      have hlt := filter_succ_length_lt active id e hmem hle
      have hfuel : (active.filter (fun a => decide (e + 1 ≤ a))).length < n := by omega
      simp only [enumerate, xfs_fs_get_nextdqblk, hon, hfrom, h2.1, h2.2, hmk]
      simp only [Bool.not_true, Bool.false_eq_true, if_false, ne_eq, not_true_eq_false]
      obtain ⟨ih1, ih2, ih3⟩ := ih
        (Sys.log s (E.xfs_qm_scall_getquota_next s.world (XFS_M sb) id
          (xfs_quota_type type) qdq).2.2.2
          (Call.scall_getquota_next id (xfs_quota_type type)))
        (e + 1)
        (E.xfs_qm_scall_getquota_next s.world (XFS_M sb) id (xfs_quota_type type) qdq).2.2.1
        hfuel
      refine ⟨ih1, ?_, ?_⟩
      · rw [List.pairwise_cons]
        refine ⟨?_, ih2⟩
        intro a ha
        have := (ih3 a).mp ha
        omega
      · intro a
        rw [List.mem_cons, ih3 a]
        constructor
        · rintro (rfl | ⟨ha, hge⟩)
          · exact ⟨hmem, hle⟩
          · exact ⟨ha, by omega⟩
        · rintro ⟨ha, hge⟩
          have := hmin a ha hge
          by_cases hae : a = e
          · exact Or.inl hae
          · exact Or.inr ⟨ha, by omega⟩

/-- Witness of C13: with the group ids 3, 7, 20 active, the request for id 4
is answered with id 7 of the same type and the engine's record, the request for
id 21 fails with the engine's `-ENOENT` and the identity stays as requested. -/
theorem get_nextdqblk_result_witness :
    XFS_IS_QUOTA_ON (XFS_M (mkSb 0 XFS_GQUOTA_ACCT)) = true ∧
    xfs_fs_get_nextdqblk (activeEngine groupActive groupRecord) init_user_ns sys0
        (mkSb 0 XFS_GQUOTA_ACCT) ⟨4, GRPQUOTA⟩ qc_dqblk_zero =
      (0, ⟨7, GRPQUOTA⟩, groupRecord 7,
        ⟨(), [Call.scall_getquota_next 4 XFS_DQTYPE_GROUP]⟩) ∧
    xfs_fs_get_nextdqblk (activeEngine groupActive groupRecord) init_user_ns sys0
        (mkSb 0 XFS_GQUOTA_ACCT) ⟨21, GRPQUOTA⟩ qc_dqblk_zero =
      (-ENOENT, ⟨21, GRPQUOTA⟩, qc_dqblk_zero,
        ⟨(), [Call.scall_getquota_next 21 XFS_DQTYPE_GROUP]⟩) :=
  ⟨by decide,
    (get_nextdqblk_result (activeEngine groupActive groupRecord) init_user_ns sys0
      (mkSb 0 XFS_GQUOTA_ACCT) ⟨4, GRPQUOTA⟩ qc_dqblk_zero (by decide)).2 (by decide),
    (get_nextdqblk_result (activeEngine groupActive groupRecord) init_user_ns sys0
      (mkSb 0 XFS_GQUOTA_ACCT) ⟨21, GRPQUOTA⟩ qc_dqblk_zero (by decide)).1 (by decide)⟩

/-- C14: let the engine answer the next-active query over a finite collection
`active` of ids of the requested type (least active id at or after the given
one, `-ENOENT` if none).  In the initial namespace, the enumeration that starts
at id 0 and continues with the last returned id plus one ends with `-ENOENT`
after at most one call more than there are active ids, and the ids it visited
are exactly the active ids, each once, in strictly increasing order.  With the
group ids 3, 7, 20 active, the request for group id 0 gives 3, for 4 gives 7
and for 21 fails with `-ENOENT`. -/
theorem next_identity_iteration_terminates (E : Engine W) (s : Sys W) (sb : super_block)
    (type : Int) (qdq : qc_dqblk) (active : List Nat) (fuel : Nat)
    (hon : XFS_IS_QUOTA_ON (XFS_M sb) = true)
    (hE : NextActiveContract E (XFS_M sb) (xfs_quota_type type) active)
    (hfuel : active.length < fuel) :
    ((enumerate E init_user_ns sb type fuel s 0 qdq).2 = some (-ENOENT) ∧
      List.Pairwise (fun a b => a < b) (enumerate E init_user_ns sb type fuel s 0 qdq).1 ∧
      ∀ a, a ∈ (enumerate E init_user_ns sb type fuel s 0 qdq).1 ↔ a ∈ active) ∧
    ((xfs_fs_get_nextdqblk (activeEngine groupActive groupRecord) init_user_ns sys0
        (mkSb 0 XFS_GQUOTA_ACCT) ⟨0, GRPQUOTA⟩ qc_dqblk_zero).1 = 0 ∧
      (xfs_fs_get_nextdqblk (activeEngine groupActive groupRecord) init_user_ns sys0
        (mkSb 0 XFS_GQUOTA_ACCT) ⟨0, GRPQUOTA⟩ qc_dqblk_zero).2.1 = ⟨3, GRPQUOTA⟩ ∧
      (xfs_fs_get_nextdqblk (activeEngine groupActive groupRecord) init_user_ns sys0
        (mkSb 0 XFS_GQUOTA_ACCT) ⟨4, GRPQUOTA⟩ qc_dqblk_zero).1 = 0 ∧
      (xfs_fs_get_nextdqblk (activeEngine groupActive groupRecord) init_user_ns sys0
        (mkSb 0 XFS_GQUOTA_ACCT) ⟨4, GRPQUOTA⟩ qc_dqblk_zero).2.1 = ⟨7, GRPQUOTA⟩ ∧
      (xfs_fs_get_nextdqblk (activeEngine groupActive groupRecord) init_user_ns sys0
        (mkSb 0 XFS_GQUOTA_ACCT) ⟨21, GRPQUOTA⟩ qc_dqblk_zero).1 = -ENOENT) := by
  have hlen : (active.filter (fun a => decide (0 ≤ a))).length < fuel :=
    lt_of_le_of_lt (List.length_filter_le _ _) hfuel
  obtain ⟨h1, h2, h3⟩ := enumerate_from E sb type active hon hE fuel s 0 qdq hlen
  refine ⟨⟨h1, h2, fun a => ?_⟩, by decide, by decide, by decide, by decide, by decide⟩
  rw [h3 a]
  simp

/-- Witness of C14: the enumeration over the group ids 20, 3, 7 (given in no
order), with four calls allowed, visits 3, 7, 20 and ends with `-ENOENT`. -/
theorem next_identity_iteration_terminates_witness :
    XFS_IS_QUOTA_ON (XFS_M (mkSb 0 XFS_GQUOTA_ACCT)) = true ∧
    enumerate (activeEngine (fun _ => [20, 3, 7]) groupRecord) init_user_ns
        (mkSb 0 XFS_GQUOTA_ACCT) GRPQUOTA 4 sys0 0 qc_dqblk_zero =
      ([3, 7, 20], some (-ENOENT)) ∧
    (enumerate (activeEngine (fun _ => [20, 3, 7]) groupRecord) init_user_ns
        (mkSb 0 XFS_GQUOTA_ACCT) GRPQUOTA 4 sys0 0 qc_dqblk_zero).2 = some (-ENOENT) ∧
    List.Pairwise (fun a b => a < b)
      (enumerate (activeEngine (fun _ => [20, 3, 7]) groupRecord) init_user_ns
        (mkSb 0 XFS_GQUOTA_ACCT) GRPQUOTA 4 sys0 0 qc_dqblk_zero).1 ∧
    ∀ a, a ∈ (enumerate (activeEngine (fun _ => [20, 3, 7]) groupRecord) init_user_ns
        (mkSb 0 XFS_GQUOTA_ACCT) GRPQUOTA 4 sys0 0 qc_dqblk_zero).1 ↔ a ∈ [20, 3, 7] :=
  ⟨by decide, by decide,
    (next_identity_iteration_terminates (activeEngine (fun _ => [20, 3, 7]) groupRecord) sys0
      (mkSb 0 XFS_GQUOTA_ACCT) GRPQUOTA qc_dqblk_zero [20, 3, 7] 4 (by decide)
      (activeEngine_contract (fun _ => [20, 3, 7]) groupRecord _ _) (by decide)).1⟩

/-! ## Translation of identities across the namespace boundary -/

/-- In the initial namespace the translation to the engine id and back gives the
identity it started from. -/
theorem roundtrip_init_user_ns (i : kqid) :
    make_kqid init_user_ns i.type (from_kqid init_user_ns i) = i := rfl

/-- C15: with the initial namespace as the namespace context, for every
identity `i` of any type, translating `i` to an engine id as the request path
does (`from_kqid` against `init_user_ns`) and translating that engine id back
as the result path of `xfs_fs_get_nextdqblk` does (`make_kqid` with the type of
the request) gives `i`; so when quota is on and the engine answers with the id
it was asked about, the call returns 0 and the identity returned is the
identity requested. -/
theorem identity_roundtrip_initial_namespace (E : Engine W) (s : Sys W) (sb : super_block)
    (i : kqid) (qdq : qc_dqblk) (hon : XFS_IS_QUOTA_ON (XFS_M sb) = true)
    (hret : (E.xfs_qm_scall_getquota_next s.world (XFS_M sb) (from_kqid init_user_ns i)
      (xfs_quota_type i.type) qdq).1 = 0)
    (hecho : (E.xfs_qm_scall_getquota_next s.world (XFS_M sb) (from_kqid init_user_ns i)
      (xfs_quota_type i.type) qdq).2.1 = from_kqid init_user_ns i) :
    make_kqid init_user_ns i.type (from_kqid init_user_ns i) = i ∧
    (xfs_fs_get_nextdqblk E init_user_ns s sb i qdq).1 = 0 ∧
    (xfs_fs_get_nextdqblk E init_user_ns s sb i qdq).2.1 = i := by
  refine ⟨roundtrip_init_user_ns i, ?_, ?_⟩
  · simp [xfs_fs_get_nextdqblk, hon, hret]
  · simp only [xfs_fs_get_nextdqblk, hon, hret, hecho, Bool.not_true, Bool.false_eq_true,
      if_false, ne_eq, not_true_eq_false]
    exact roundtrip_init_user_ns i

/-- Witness of C15: project identity 1000 on an engine that answers with the id
it was asked about. -/
theorem identity_roundtrip_initial_namespace_witness :
    XFS_IS_QUOTA_ON (XFS_M (mkSb 0 XFS_PQUOTA_ACCT)) = true ∧
    ((constEngine 0).xfs_qm_scall_getquota_next sys0.world (XFS_M (mkSb 0 XFS_PQUOTA_ACCT))
      (from_kqid init_user_ns ⟨1000, PRJQUOTA⟩) (xfs_quota_type PRJQUOTA) qc_dqblk_zero).1 = 0 ∧
    ((constEngine 0).xfs_qm_scall_getquota_next sys0.world (XFS_M (mkSb 0 XFS_PQUOTA_ACCT))
      (from_kqid init_user_ns ⟨1000, PRJQUOTA⟩) (xfs_quota_type PRJQUOTA) qc_dqblk_zero).2.1 =
        from_kqid init_user_ns ⟨1000, PRJQUOTA⟩ ∧
    make_kqid init_user_ns PRJQUOTA (from_kqid init_user_ns ⟨1000, PRJQUOTA⟩) =
      ⟨1000, PRJQUOTA⟩ ∧
    (xfs_fs_get_nextdqblk (constEngine 0) init_user_ns sys0 (mkSb 0 XFS_PQUOTA_ACCT)
      ⟨1000, PRJQUOTA⟩ qc_dqblk_zero).1 = 0 ∧
    (xfs_fs_get_nextdqblk (constEngine 0) init_user_ns sys0 (mkSb 0 XFS_PQUOTA_ACCT)
      ⟨1000, PRJQUOTA⟩ qc_dqblk_zero).2.1 = ⟨1000, PRJQUOTA⟩ :=
  ⟨by decide, by decide, by decide,
    identity_roundtrip_initial_namespace (constEngine 0) sys0 (mkSb 0 XFS_PQUOTA_ACCT)
      ⟨1000, PRJQUOTA⟩ qc_dqblk_zero (by decide) (by decide) (by decide)⟩

/-! ## The type-state reader and the snapshot -/

/-- The `int` that `xfs_qm_fill_state` returns when the load of the system file
returned `e`. -/
def reader_ret (e : Int) : Int :=
  if e ≠ 0 then (if e ≠ -ENOENT then e else 0) else 0

/-- The type state that `xfs_qm_fill_state` leaves behind `tstate` when the
load returned `e` and the inode `ip`, with `defq` the default limits of the
type. -/
def reader_state (t : qc_type_state) (e : Int) (ip : xfs_inode) (defq : xfs_def_quota) :
    qc_type_state :=
  if e ≠ 0 then { t with ino := NULLFSINO }
  else
    { flags := t.flags ||| QCI_SYSFILE
      spc_timelimit := cast_u32 defq.blk.time
      ino_timelimit := cast_u32 defq.ino.time
      rt_spc_timelimit := cast_u32 defq.rtb.time
      spc_warnlimit := 0
      ino_warnlimit := 0
      rt_spc_warnlimit := 0
      ino := ip.i_ino
      blocks := ip.i_nblocks
      nextents := ip.if_nextents }

/-- The engine calls that `xfs_qm_fill_state` makes for one type from engine
state `w`: the load and, when it succeeded, the release of the inode. -/
def reader_calls (E : Engine W) (w : W) (mp : xfs_mount) (type : Nat) : List Call :=
  if (E.xfs_qm_qino_load w mp type).1 ≠ 0 then [Call.qino_load type]
  else [Call.qino_load type, Call.irele (E.xfs_qm_qino_load w mp type).2.1]

/-- The engine state after `xfs_qm_fill_state` ran for one type from engine
state `w`. -/
def world_after_fill (E : Engine W) (w : W) (mp : xfs_mount) (type : Nat) : W :=
  if (E.xfs_qm_qino_load w mp type).1 ≠ 0 then (E.xfs_qm_qino_load w mp type).2.2
  else E.xfs_irele (E.xfs_qm_qino_load w mp type).2.2 (E.xfs_qm_qino_load w mp type).2.1

/-- The result of `xfs_qm_fill_state`, written out, when quota info is attached
and `type` is an engine type with default limits `defq`. -/
theorem fill_state_eq (E : Engine W) (s : Sys W) (t : qc_type_state) (mp : xfs_mount)
    (type : Nat) (q : xfs_quotainfo) (defq : xfs_def_quota)
    (hq : mp.m_quotainfo = some q) (hd : xfs_get_defquota q type = some defq) :
    xfs_qm_fill_state E s t mp type =
      some (reader_ret (E.xfs_qm_qino_load s.world mp type).1,
        reader_state t (E.xfs_qm_qino_load s.world mp type).1
          (E.xfs_qm_qino_load s.world mp type).2.1 defq,
        ⟨world_after_fill E s.world mp type, s.trace ++ reader_calls E s.world mp type⟩) := by
  unfold xfs_qm_fill_state reader_ret reader_state reader_calls world_after_fill
  by_cases h : (E.xfs_qm_qino_load s.world mp type).1 = 0
  · simp [h, hq, hd, Sys.log]
  · simp [h, Sys.log]

/-- When the load fails, `xfs_qm_fill_state` needs no quota info: it sets the
inode number to `NULLFSINO`, leaves the other fields of `tstate` alone, makes no
further engine call, and returns the error, or 0 for `-ENOENT`. -/
theorem fill_state_load_failed (E : Engine W) (s : Sys W) (t : qc_type_state)
    (mp : xfs_mount) (type : Nat) (h : (E.xfs_qm_qino_load s.world mp type).1 ≠ 0) :
    xfs_qm_fill_state E s t mp type =
      some (if (E.xfs_qm_qino_load s.world mp type).1 ≠ -ENOENT
          then (E.xfs_qm_qino_load s.world mp type).1 else 0,
        { t with ino := NULLFSINO },
        ⟨(E.xfs_qm_qino_load s.world mp type).2.2, s.trace ++ [Call.qino_load type]⟩) := by
  unfold xfs_qm_fill_state
  simp [h, Sys.log]

/-- The type state that `xfs_fs_get_quota_state` hands to the reader of a type:
all zero but the accounting and the enforcement flag. -/
def snapshot_tstate (acct enf : Bool) : qc_type_state :=
  { qc_type_state_zero with
    flags := (if acct then QCI_ACCT_ENABLED else 0) ||| (if enf then QCI_LIMITS_ENFORCED else 0) }

/-- The default limits exist for each of the three engine types. -/
theorem get_defquota_engine_types (q : xfs_quotainfo) :
    xfs_get_defquota q XFS_DQTYPE_USER = some q.qi_usr_default ∧
    xfs_get_defquota q XFS_DQTYPE_GROUP = some q.qi_grp_default ∧
    xfs_get_defquota q XFS_DQTYPE_PROJ = some q.qi_prj_default := by
  refine ⟨rfl, rfl, rfl⟩

/-- Returning the error when it is not zero and 0 otherwise is returning it. -/
theorem ret_or_zero {α : Type} (e : Int) (x : α) :
    (if e ≠ 0 then some (e, x) else some ((0 : Int), x)) = some (e, x) := by
  by_cases h : e = 0
  · simp [h]
  · simp [h]

set_option maxHeartbeats 4000000 in
/-- The result of `xfs_fs_get_quota_state`, written out, when quota is on and
quota info is attached: the three readers run in the order user, group,
project, each from the engine state the one before left, and the first reader
that returns an error ends the function. -/
theorem get_quota_state_on (E : Engine W) (s : Sys W) (sb : super_block) (st0 : qc_state)
    (q : xfs_quotainfo) (hon : XFS_IS_QUOTA_ON (XFS_M sb) = true)
    (hq : (XFS_M sb).m_quotainfo = some q) :
    xfs_fs_get_quota_state E s sb st0 =
      if reader_ret (E.xfs_qm_qino_load s.world (XFS_M sb) XFS_DQTYPE_USER).1 ≠ 0 then
        some (reader_ret (E.xfs_qm_qino_load s.world (XFS_M sb) XFS_DQTYPE_USER).1,
          ⟨q.qi_dquots % 2 ^ 32,
            reader_state
              (snapshot_tstate (XFS_IS_UQUOTA_ON (XFS_M sb)) (XFS_IS_UQUOTA_ENFORCED (XFS_M sb)))
              (E.xfs_qm_qino_load s.world (XFS_M sb) XFS_DQTYPE_USER).1
              (E.xfs_qm_qino_load s.world (XFS_M sb) XFS_DQTYPE_USER).2.1 q.qi_usr_default,
            snapshot_tstate (XFS_IS_GQUOTA_ON (XFS_M sb)) (XFS_IS_GQUOTA_ENFORCED (XFS_M sb)),
            snapshot_tstate (XFS_IS_PQUOTA_ON (XFS_M sb)) (XFS_IS_PQUOTA_ENFORCED (XFS_M sb))⟩,
          ⟨world_after_fill E s.world (XFS_M sb) XFS_DQTYPE_USER,
            s.trace ++ reader_calls E s.world (XFS_M sb) XFS_DQTYPE_USER⟩)
      else if reader_ret (E.xfs_qm_qino_load
          (world_after_fill E s.world (XFS_M sb) XFS_DQTYPE_USER)
          (XFS_M sb) XFS_DQTYPE_GROUP).1 ≠ 0 then
        some (reader_ret (E.xfs_qm_qino_load
            (world_after_fill E s.world (XFS_M sb) XFS_DQTYPE_USER)
            (XFS_M sb) XFS_DQTYPE_GROUP).1,
          ⟨q.qi_dquots % 2 ^ 32,
            reader_state
              (snapshot_tstate (XFS_IS_UQUOTA_ON (XFS_M sb)) (XFS_IS_UQUOTA_ENFORCED (XFS_M sb)))
              (E.xfs_qm_qino_load s.world (XFS_M sb) XFS_DQTYPE_USER).1
              (E.xfs_qm_qino_load s.world (XFS_M sb) XFS_DQTYPE_USER).2.1 q.qi_usr_default,
            reader_state
              (snapshot_tstate (XFS_IS_GQUOTA_ON (XFS_M sb)) (XFS_IS_GQUOTA_ENFORCED (XFS_M sb)))
              (E.xfs_qm_qino_load (world_after_fill E s.world (XFS_M sb) XFS_DQTYPE_USER)
                (XFS_M sb) XFS_DQTYPE_GROUP).1
              (E.xfs_qm_qino_load (world_after_fill E s.world (XFS_M sb) XFS_DQTYPE_USER)
                (XFS_M sb) XFS_DQTYPE_GROUP).2.1 q.qi_grp_default,
            snapshot_tstate (XFS_IS_PQUOTA_ON (XFS_M sb)) (XFS_IS_PQUOTA_ENFORCED (XFS_M sb))⟩,
          ⟨world_after_fill E (world_after_fill E s.world (XFS_M sb) XFS_DQTYPE_USER)
              (XFS_M sb) XFS_DQTYPE_GROUP,
            s.trace ++ reader_calls E s.world (XFS_M sb) XFS_DQTYPE_USER ++
              reader_calls E (world_after_fill E s.world (XFS_M sb) XFS_DQTYPE_USER)
                (XFS_M sb) XFS_DQTYPE_GROUP⟩)
      else
        some (reader_ret (E.xfs_qm_qino_load
            (world_after_fill E (world_after_fill E s.world (XFS_M sb) XFS_DQTYPE_USER)
              (XFS_M sb) XFS_DQTYPE_GROUP)
            (XFS_M sb) XFS_DQTYPE_PROJ).1,
          ⟨q.qi_dquots % 2 ^ 32,
            reader_state
              (snapshot_tstate (XFS_IS_UQUOTA_ON (XFS_M sb)) (XFS_IS_UQUOTA_ENFORCED (XFS_M sb)))
              (E.xfs_qm_qino_load s.world (XFS_M sb) XFS_DQTYPE_USER).1
              (E.xfs_qm_qino_load s.world (XFS_M sb) XFS_DQTYPE_USER).2.1 q.qi_usr_default,
            reader_state
              (snapshot_tstate (XFS_IS_GQUOTA_ON (XFS_M sb)) (XFS_IS_GQUOTA_ENFORCED (XFS_M sb)))
              (E.xfs_qm_qino_load (world_after_fill E s.world (XFS_M sb) XFS_DQTYPE_USER)
                (XFS_M sb) XFS_DQTYPE_GROUP).1
              (E.xfs_qm_qino_load (world_after_fill E s.world (XFS_M sb) XFS_DQTYPE_USER)
                (XFS_M sb) XFS_DQTYPE_GROUP).2.1 q.qi_grp_default,
            reader_state
              (snapshot_tstate (XFS_IS_PQUOTA_ON (XFS_M sb)) (XFS_IS_PQUOTA_ENFORCED (XFS_M sb)))
              (E.xfs_qm_qino_load
                (world_after_fill E (world_after_fill E s.world (XFS_M sb) XFS_DQTYPE_USER)
                  (XFS_M sb) XFS_DQTYPE_GROUP)
                (XFS_M sb) XFS_DQTYPE_PROJ).1
              (E.xfs_qm_qino_load
                (world_after_fill E (world_after_fill E s.world (XFS_M sb) XFS_DQTYPE_USER)
                  (XFS_M sb) XFS_DQTYPE_GROUP)
                (XFS_M sb) XFS_DQTYPE_PROJ).2.1 q.qi_prj_default⟩,
          ⟨world_after_fill E
              (world_after_fill E (world_after_fill E s.world (XFS_M sb) XFS_DQTYPE_USER)
                (XFS_M sb) XFS_DQTYPE_GROUP)
              (XFS_M sb) XFS_DQTYPE_PROJ,
            s.trace ++ reader_calls E s.world (XFS_M sb) XFS_DQTYPE_USER ++
              reader_calls E (world_after_fill E s.world (XFS_M sb) XFS_DQTYPE_USER)
                (XFS_M sb) XFS_DQTYPE_GROUP ++
              reader_calls E
                (world_after_fill E (world_after_fill E s.world (XFS_M sb) XFS_DQTYPE_USER)
                  (XFS_M sb) XFS_DQTYPE_GROUP)
                (XFS_M sb) XFS_DQTYPE_PROJ⟩) := by
  have hdU := (get_defquota_engine_types q).1
  have hdG := (get_defquota_engine_types q).2.1
  have hdP := (get_defquota_engine_types q).2.2
  have hU := fun (s : Sys W) (t : qc_type_state) =>
    fill_state_eq E s t (XFS_M sb) XFS_DQTYPE_USER q q.qi_usr_default hq hdU
  have hG := fun (s : Sys W) (t : qc_type_state) =>
    fill_state_eq E s t (XFS_M sb) XFS_DQTYPE_GROUP q q.qi_grp_default hq hdG
  have hP := fun (s : Sys W) (t : qc_type_state) =>
    fill_state_eq E s t (XFS_M sb) XFS_DQTYPE_PROJ q q.qi_prj_default hq hdP
  unfold xfs_fs_get_quota_state
  cases h1 : XFS_IS_UQUOTA_ON (XFS_M sb) <;> cases h2 : XFS_IS_UQUOTA_ENFORCED (XFS_M sb) <;>
  cases h3 : XFS_IS_GQUOTA_ON (XFS_M sb) <;> cases h4 : XFS_IS_GQUOTA_ENFORCED (XFS_M sb) <;>
  cases h5 : XFS_IS_PQUOTA_ON (XFS_M sb) <;> cases h6 : XFS_IS_PQUOTA_ENFORCED (XFS_M sb) <;>
    simp only [↓reduceIte, hon, hq, h1, h2, h3, h4, h5, h6, hU, hG, hP, ret_or_zero,
      Bool.not_true,
      Bool.false_eq_true, snapshot_tstate, qc_type_state.or_flags, qc_state_zero,
      qc_type_state_zero, List.append_assoc] <;>
    split_ifs <;> rfl

/-- Quota info of the examples: 5 resident records and a default grace period
of 604800 seconds for every limit of every type. -/
def exampleQuotainfo : xfs_quotainfo :=
  ⟨5, ⟨⟨604800⟩, ⟨604800⟩, ⟨604800⟩⟩, ⟨⟨604800⟩, ⟨604800⟩, ⟨604800⟩⟩,
    ⟨⟨604800⟩, ⟨604800⟩, ⟨604800⟩⟩⟩

/-- A writable super block with quota flags `m_qflags` and the example quota
info attached. -/
def mkSbQ (m_qflags : Nat) : super_block := ⟨0, ⟨m_qflags, some exampleQuotainfo⟩⟩

/-- The system-file flag is set after it has been or-ed in. -/
theorem or_sysfile_and_sysfile (x : Nat) : (x ||| QCI_SYSFILE) &&& QCI_SYSFILE ≠ 0 := by
  intro h
  have h0 : ((x ||| QCI_SYSFILE) &&& QCI_SYSFILE).testBit 0 = false := by
    rw [h]; exact Nat.zero_testBit 0
  rw [Nat.testBit_and, Nat.testBit_or] at h0
  have h1 : QCI_SYSFILE.testBit 0 = true := by decide
  rw [h1] at h0
  simp at h0

/-- Or-ing a flag in keeps every flag that was set. -/
theorem or_and_self_eq (x y : Nat) : (x ||| y) &&& x = x := by
  apply Nat.eq_of_testBit_eq
  intro i
  rw [Nat.testBit_and, Nat.testBit_or]
  cases x.testBit i <;> cases y.testBit i <;> rfl

/-- The reader never returns `-ENOENT`. -/
theorem reader_ret_ne_enoent (e : Int) : reader_ret e ≠ -ENOENT := by
  unfold reader_ret
  split_ifs with h1 h2
  · exact h2
  · decide
  · decide

/-- The reader returns 0 exactly when the load succeeded or reported the file
as not provisioned. -/
theorem reader_ret_eq_zero_iff (e : Int) : reader_ret e = 0 ↔ (e = 0 ∨ e = -ENOENT) := by
  unfold reader_ret
  split_ifs with h1 h2
  · constructor
    · intro h; exact absurd h h1
    · rintro (h | h)
      · exact absurd h h1
      · exact absurd h h2
  · constructor
    · intro _; exact Or.inr (not_not.mp h2)
    · intro _; rfl
  · constructor
    · intro _; exact Or.inl (not_not.mp h1)
    · intro _; rfl

/-- The reader returns the error of the load when that error is neither 0 nor
`-ENOENT`. -/
theorem reader_ret_of_error (e : Int) (h0 : e ≠ 0) (h1 : e ≠ -ENOENT) : reader_ret e = e := by
  simp [reader_ret, h0, h1]

/-- A type state prepared by the snapshot and passed through the reader has
zero counters and timers whenever its system-file flag is clear. -/
theorem reader_state_absent_is_zero (acct enf : Bool) (e : Int) (ip : xfs_inode)
    (defq : xfs_def_quota)
    (h : (reader_state (snapshot_tstate acct enf) e ip defq).flags &&& QCI_SYSFILE = 0) :
    (reader_state (snapshot_tstate acct enf) e ip defq).blocks = 0 ∧
    (reader_state (snapshot_tstate acct enf) e ip defq).nextents = 0 ∧
    (reader_state (snapshot_tstate acct enf) e ip defq).spc_timelimit = 0 ∧
    (reader_state (snapshot_tstate acct enf) e ip defq).ino_timelimit = 0 ∧
    (reader_state (snapshot_tstate acct enf) e ip defq).rt_spc_timelimit = 0 := by
  unfold reader_state at h ⊢
  split_ifs at h ⊢ with he
  · exact ⟨rfl, rfl, rfl, rfl, rfl⟩
  · exact absurd h (or_sysfile_and_sysfile _)

/-- A type state prepared by the snapshot has zero counters and timers. -/
theorem snapshot_tstate_is_zero (acct enf : Bool) :
    (snapshot_tstate acct enf).blocks = 0 ∧
    (snapshot_tstate acct enf).nextents = 0 ∧
    (snapshot_tstate acct enf).spc_timelimit = 0 ∧
    (snapshot_tstate acct enf).ino_timelimit = 0 ∧
    (snapshot_tstate acct enf).rt_spc_timelimit = 0 :=
  ⟨rfl, rfl, rfl, rfl, rfl⟩

/-- The shape of every result of `xfs_fs_get_quota_state` with quota on: the
record count is the engine's counter as a 32-bit word and each type state is
the state the snapshot prepared, passed through the reader or not yet. -/
theorem get_quota_state_shape (E : Engine W) (s : Sys W) (sb : super_block) (st0 : qc_state)
    (q : xfs_quotainfo) (ret : Int) (st : qc_state) (s1 : Sys W)
    (hon : XFS_IS_QUOTA_ON (XFS_M sb) = true) (hq : (XFS_M sb).m_quotainfo = some q)
    (hres : xfs_fs_get_quota_state E s sb st0 = some (ret, st, s1)) :
    st.s_incoredqs = q.qi_dquots % 2 ^ 32 ∧
    (∃ e ip, st.s_state_USRQUOTA = reader_state
      (snapshot_tstate (XFS_IS_UQUOTA_ON (XFS_M sb)) (XFS_IS_UQUOTA_ENFORCED (XFS_M sb)))
      e ip q.qi_usr_default) ∧
    (st.s_state_GRPQUOTA =
        snapshot_tstate (XFS_IS_GQUOTA_ON (XFS_M sb)) (XFS_IS_GQUOTA_ENFORCED (XFS_M sb)) ∨
      ∃ e ip, st.s_state_GRPQUOTA = reader_state
        (snapshot_tstate (XFS_IS_GQUOTA_ON (XFS_M sb)) (XFS_IS_GQUOTA_ENFORCED (XFS_M sb)))
        e ip q.qi_grp_default) ∧
    (st.s_state_PRJQUOTA =
        snapshot_tstate (XFS_IS_PQUOTA_ON (XFS_M sb)) (XFS_IS_PQUOTA_ENFORCED (XFS_M sb)) ∨
      ∃ e ip, st.s_state_PRJQUOTA = reader_state
        (snapshot_tstate (XFS_IS_PQUOTA_ON (XFS_M sb)) (XFS_IS_PQUOTA_ENFORCED (XFS_M sb)))
        e ip q.qi_prj_default) := by
  rw [get_quota_state_on E s sb st0 q hon hq] at hres
  split_ifs at hres
  · simp only [Option.some.injEq, Prod.mk.injEq] at hres
    obtain ⟨-, hst, -⟩ := hres
    subst hst
    exact ⟨rfl, ⟨_, _, rfl⟩, Or.inl rfl, Or.inl rfl⟩
  · simp only [Option.some.injEq, Prod.mk.injEq] at hres
    obtain ⟨-, hst, -⟩ := hres
    subst hst
    exact ⟨rfl, ⟨_, _, rfl⟩, Or.inr ⟨_, _, rfl⟩, Or.inl rfl⟩
  · simp only [Option.some.injEq, Prod.mk.injEq] at hres
    obtain ⟨-, hst, -⟩ := hres
    subst hst
    exact ⟨rfl, ⟨_, _, rfl⟩, Or.inr ⟨_, _, rfl⟩, Or.inr ⟨_, _, rfl⟩⟩

/-- C16, as stated, fails: with accounting on for the user type only and the
system files of all three types provisioned, the snapshot is returned with 0
and the group state, whose accounting flag is clear, has `QCI_SYSFILE` set, 8
blocks, 1 extent and the three timers at the engine's default of 604800. -/
theorem snapshot_disabled_type_is_populated :
    XFS_IS_QUOTA_ON (XFS_M (mkSbQ XFS_UQUOTA_ACCT)) = true ∧
    (xfs_fs_get_quota_state (constEngine 0) sys0 (mkSbQ XFS_UQUOTA_ACCT) qc_state_zero).map
      (fun r => r.1) = some 0 ∧
    (xfs_fs_get_quota_state (constEngine 0) sys0 (mkSbQ XFS_UQUOTA_ACCT) qc_state_zero).map
      (fun r => r.2.1.s_state_GRPQUOTA) =
        some ⟨QCI_SYSFILE, 604800, 604800, 604800, 0, 0, 0, 128, 8, 1⟩ ∧
    QCI_SYSFILE &&& QCI_ACCT_ENABLED = 0 ∧ QCI_SYSFILE &&& QCI_SYSFILE ≠ 0 := by
  refine ⟨by decide, by decide, by decide, by decide, by decide⟩

/-- C16, amended: in every snapshot that `xfs_fs_get_quota_state` returns with
0, for each of the three types, if the system-file flag `QCI_SYSFILE` of the
type is clear then its block count, extent count and three timers are zero,
whether or not accounting is enabled for the type. -/
theorem snapshot_absent_file_is_zero (E : Engine W) (s : Sys W) (sb : super_block)
    (st0 st : qc_state) (s1 : Sys W)
    (hres : xfs_fs_get_quota_state E s sb st0 = some (0, st, s1)) :
    ∀ t, (t = st.s_state_USRQUOTA ∨ t = st.s_state_GRPQUOTA ∨ t = st.s_state_PRJQUOTA) →
      t.flags &&& QCI_SYSFILE = 0 →
      t.blocks = 0 ∧ t.nextents = 0 ∧ t.spc_timelimit = 0 ∧ t.ino_timelimit = 0 ∧
        t.rt_spc_timelimit = 0 := by
  cases hon : XFS_IS_QUOTA_ON (XFS_M sb) with
  | false =>
    have hoff : xfs_fs_get_quota_state E s sb st0 = some (0, qc_state_zero, s) := by
      simp [xfs_fs_get_quota_state, hon]
    rw [hoff] at hres
    simp only [Option.some.injEq, Prod.mk.injEq, true_and] at hres
    obtain ⟨hst, -⟩ := hres
    subst hst
    rintro t (rfl | rfl | rfl) _ <;> exact ⟨rfl, rfl, rfl, rfl, rfl⟩
  | true =>
    cases hq : (XFS_M sb).m_quotainfo with
    | none =>
      have hnone : xfs_fs_get_quota_state E s sb st0 = none := by
        simp [xfs_fs_get_quota_state, hon, hq]
      rw [hnone] at hres
      exact absurd hres (by simp)
    | some q =>
      obtain ⟨-, ⟨eU, ipU, hU⟩, hG, hP⟩ :=
        get_quota_state_shape E s sb st0 q 0 st s1 hon hq hres
      rintro t (rfl | rfl | rfl) ht
      · rw [hU] at ht ⊢
        exact reader_state_absent_is_zero _ _ _ _ _ ht
      · rcases hG with hG | ⟨e, ip, hG⟩
        · rw [hG]; exact snapshot_tstate_is_zero _ _
        · rw [hG] at ht ⊢
          exact reader_state_absent_is_zero _ _ _ _ _ ht
      · rcases hP with hP | ⟨e, ip, hP⟩
        · rw [hP]; exact snapshot_tstate_is_zero _ _
        · rw [hP] at ht ⊢
          exact reader_state_absent_is_zero _ _ _ _ _ ht

/-- An engine without state whose load of the system file of engine type `t`
returns `result t` and, on success, inode `128 + t` with 8 blocks in 1 extent;
every other call answers 0. -/
def fileEngine (result : Nat → Int) : Engine Unit :=
  { constEngine 0 with
    xfs_qm_qino_load := fun w _ type => (result type, ⟨128 + type, 8, 1⟩, w) }

/-- Load results of the examples: the user file is provisioned, the group and
the project file are not. -/
def userFileOnly (type : Nat) : Int :=
  if type = XFS_DQTYPE_USER then 0 else -ENOENT

/-- Load results of the examples: the user file is provisioned, the load of the
group file fails with `-5`, the project file is provisioned. -/
def groupFileBroken (type : Nat) : Int :=
  if type = XFS_DQTYPE_GROUP then -5 else 0

/-- The snapshot of the examples when only the user file is provisioned and
user accounting is on. -/
def userOnlySnapshot : qc_state :=
  ⟨5, ⟨5, 604800, 604800, 604800, 0, 0, 0, 129, 8, 1⟩,
    ⟨0, 0, 0, 0, 0, 0, 0, NULLFSINO, 0, 0⟩, ⟨0, 0, 0, 0, 0, 0, 0, NULLFSINO, 0, 0⟩⟩

/-- The engine calls of the examples when only the user file is provisioned. -/
def userOnlyCalls : List Call :=
  [Call.qino_load XFS_DQTYPE_USER, Call.irele ⟨129, 8, 1⟩,
    Call.qino_load XFS_DQTYPE_GROUP, Call.qino_load XFS_DQTYPE_PROJ]

/-- Witness of C16 amended: user accounting on, only the user file
provisioned: the group and the project state have `QCI_SYSFILE` clear and zero
counters and timers. -/
theorem snapshot_absent_file_is_zero_witness :
    xfs_fs_get_quota_state (fileEngine userFileOnly) sys0 (mkSbQ XFS_UQUOTA_ACCT) qc_state_zero =
      some (0, userOnlySnapshot, ⟨(), userOnlyCalls⟩) ∧
    ∀ t, (t = userOnlySnapshot.s_state_USRQUOTA ∨ t = userOnlySnapshot.s_state_GRPQUOTA ∨
        t = userOnlySnapshot.s_state_PRJQUOTA) →
      t.flags &&& QCI_SYSFILE = 0 →
      t.blocks = 0 ∧ t.nextents = 0 ∧ t.spc_timelimit = 0 ∧ t.ino_timelimit = 0 ∧
        t.rt_spc_timelimit = 0 :=
  ⟨rfl, snapshot_absent_file_is_zero (fileEngine userFileOnly) sys0 (mkSbQ XFS_UQUOTA_ACCT)
    qc_state_zero userOnlySnapshot ⟨(), userOnlyCalls⟩ rfl⟩

/-- C17: when `xfs_qm_qino_load` returns `-ENOENT` for the type,
`xfs_qm_fill_state` returns 0 after that one engine call, sets the inode number
to `NULLFSINO` and leaves every other field of the state as it was.  On a state
as `xfs_fs_get_quota_state` hands it over (zero but for the accounting and
enforcement flags) the result has `QCI_SYSFILE` clear, inode `NULLFSINO`, and
zero counters, timers and warn limits.  Within the snapshot `-ENOENT` is never
the returned value, and when every load reports `-ENOENT` the snapshot is
returned with 0 after the three loads. -/
theorem fill_state_not_provisioned (E : Engine W) (s : Sys W) (mp : xfs_mount) (type : Nat)
    (hE : (E.xfs_qm_qino_load s.world mp type).1 = -ENOENT) :
    (∀ t : qc_type_state, xfs_qm_fill_state E s t mp type =
      some (0, { t with ino := NULLFSINO },
        ⟨(E.xfs_qm_qino_load s.world mp type).2.2, s.trace ++ [Call.qino_load type]⟩)) ∧
    (∀ acct enf : Bool, ∃ f : Nat, f &&& QCI_SYSFILE = 0 ∧
      xfs_qm_fill_state E s (snapshot_tstate acct enf) mp type =
        some (0, ⟨f, 0, 0, 0, 0, 0, 0, NULLFSINO, 0, 0⟩,
          ⟨(E.xfs_qm_qino_load s.world mp type).2.2, s.trace ++ [Call.qino_load type]⟩)) ∧
    (∀ (sb : super_block) (st0 st : qc_state) (ret : Int) (s1 : Sys W),
      xfs_fs_get_quota_state E s sb st0 = some (ret, st, s1) → ret ≠ -ENOENT) ∧
    (∀ (sb : super_block) (st0 : qc_state) (q : xfs_quotainfo),
      XFS_IS_QUOTA_ON (XFS_M sb) = true → (XFS_M sb).m_quotainfo = some q →
      (∀ w t, (E.xfs_qm_qino_load w (XFS_M sb) t).1 = -ENOENT) →
      ∃ st s1, xfs_fs_get_quota_state E s sb st0 = some (0, st, s1) ∧
        s1.trace = s.trace ++ [Call.qino_load XFS_DQTYPE_USER,
          Call.qino_load XFS_DQTYPE_GROUP, Call.qino_load XFS_DQTYPE_PROJ] ∧
        st.s_state_USRQUOTA.ino = NULLFSINO ∧ st.s_state_GRPQUOTA.ino = NULLFSINO ∧
        st.s_state_PRJQUOTA.ino = NULLFSINO ∧
        st.s_state_USRQUOTA.flags &&& QCI_SYSFILE = 0 ∧
        st.s_state_GRPQUOTA.flags &&& QCI_SYSFILE = 0 ∧
        st.s_state_PRJQUOTA.flags &&& QCI_SYSFILE = 0) := by
  have hne : (E.xfs_qm_qino_load s.world mp type).1 ≠ 0 := by rw [hE]; decide
  have hflags : ∀ acct enf : Bool, (snapshot_tstate acct enf).flags &&& QCI_SYSFILE = 0 := by
    intro acct enf
    cases acct <;> cases enf <;> decide
  refine ⟨fun t => ?_, fun acct enf => ?_, ?_, ?_⟩
  · rw [fill_state_load_failed E s t mp type hne, hE]
    simp
  · refine ⟨(snapshot_tstate acct enf).flags, hflags acct enf, ?_⟩
    rw [fill_state_load_failed E s _ mp type hne, hE]
    simp [snapshot_tstate, qc_type_state_zero]
  · intro sb st0 st ret s1 hres
    cases hon : XFS_IS_QUOTA_ON (XFS_M sb) with
    | false =>
      have hoff : xfs_fs_get_quota_state E s sb st0 = some (0, qc_state_zero, s) := by
        simp [xfs_fs_get_quota_state, hon]
      rw [hoff] at hres
      simp only [Option.some.injEq, Prod.mk.injEq] at hres
      rw [← hres.1]
      decide
    | true =>
      cases hq : (XFS_M sb).m_quotainfo with
      | none =>
        have hnone : xfs_fs_get_quota_state E s sb st0 = none := by
          simp [xfs_fs_get_quota_state, hon, hq]
        rw [hnone] at hres
        exact absurd hres (by simp)
      | some q =>
        rw [get_quota_state_on E s sb st0 q hon hq] at hres
        split_ifs at hres <;>
          simp only [Option.some.injEq, Prod.mk.injEq] at hres <;>
          rw [← hres.1] <;>
          exact reader_ret_ne_enoent _
  · intro sb st0 q hon hq hall
    have hr : ∀ w t, reader_ret (E.xfs_qm_qino_load w (XFS_M sb) t).1 = 0 := by
      intro w t
      rw [reader_ret_eq_zero_iff]
      exact Or.inr (hall w t)
    have hn : ∀ w t, (E.xfs_qm_qino_load w (XFS_M sb) t).1 ≠ 0 := by
      intro w t
      rw [hall w t]
      decide
    rw [get_quota_state_on E s sb st0 q hon hq]
    simp only [hr, ne_eq, not_true_eq_false, if_false]
    refine ⟨_, _, rfl, ?_, ?_, ?_, ?_, ?_, ?_, ?_⟩
    · simp [reader_calls, hn]
    · simp [reader_state, hn]
    · simp [reader_state, hn]
    · simp [reader_state, hn]
    · simp only [reader_state, hn, ne_eq, not_false_eq_true, if_true]
      exact hflags _ _
    · simp only [reader_state, hn, ne_eq, not_false_eq_true, if_true]
      exact hflags _ _
    · simp only [reader_state, hn, ne_eq, not_false_eq_true, if_true]
      exact hflags _ _

/-- Witness of C17: the reader of the group type on an engine where only the
user file is provisioned. -/
theorem fill_state_not_provisioned_witness :
    ((fileEngine userFileOnly).xfs_qm_qino_load sys0.world (XFS_M (mkSbQ XFS_UQUOTA_ACCT))
      XFS_DQTYPE_GROUP).1 = -ENOENT ∧
    xfs_qm_fill_state (fileEngine userFileOnly) sys0 (snapshot_tstate true true)
        (XFS_M (mkSbQ XFS_UQUOTA_ACCT)) XFS_DQTYPE_GROUP =
      some (0, { snapshot_tstate true true with ino := NULLFSINO },
        ⟨((fileEngine userFileOnly).xfs_qm_qino_load sys0.world
            (XFS_M (mkSbQ XFS_UQUOTA_ACCT)) XFS_DQTYPE_GROUP).2.2,
          sys0.trace ++ [Call.qino_load XFS_DQTYPE_GROUP]⟩) :=
  ⟨by decide,
    (fill_state_not_provisioned (fileEngine userFileOnly) sys0 (XFS_M (mkSbQ XFS_UQUOTA_ACCT))
      XFS_DQTYPE_GROUP (by decide)).1 (snapshot_tstate true true)⟩

/-- The load of a system file succeeded or reported the file as not
provisioned. -/
def load_ok (e : Int) : Prop := e = 0 ∨ e = -ENOENT

instance (e : Int) : Decidable (load_ok e) := by
  unfold load_ok
  infer_instance

/-- The reader that ran into a load error made the load call only. -/
theorem reader_calls_of_error (E : Engine W) (w : W) (mp : xfs_mount) (type : Nat)
    (h : ¬ load_ok (E.xfs_qm_qino_load w mp type).1) :
    reader_calls E w mp type = [Call.qino_load type] := by
  have h0 : (E.xfs_qm_qino_load w mp type).1 ≠ 0 := fun h0 => h (Or.inl h0)
  simp [reader_calls, h0]

/-- C18: `xfs_fs_get_quota_state` with quota on (and quota info attached)
returns a result, and with `eU`, `eG`, `eP` the results of the loads of the
user, group and project file, each in the engine state the reader before it
left: if `eU` is an error other than `-ENOENT`, `eU` is returned after the user
load alone; else if `eG` is such an error, `eG` is returned and the last engine
call is the group load; else if `eP` is such an error, `eP` is returned; and 0
is returned exactly when each of the three loads succeeded or returned
`-ENOENT`. -/
theorem get_quota_state_first_error (E : Engine W) (s : Sys W) (sb : super_block)
    (st0 : qc_state) (q : xfs_quotainfo) (hon : XFS_IS_QUOTA_ON (XFS_M sb) = true)
    (hq : (XFS_M sb).m_quotainfo = some q) :
    ∃ ret st s1, xfs_fs_get_quota_state E s sb st0 = some (ret, st, s1) ∧
      (¬ load_ok (E.xfs_qm_qino_load s.world (XFS_M sb) XFS_DQTYPE_USER).1 →
        ret = (E.xfs_qm_qino_load s.world (XFS_M sb) XFS_DQTYPE_USER).1 ∧
        s1.trace = s.trace ++ [Call.qino_load XFS_DQTYPE_USER]) ∧
      (load_ok (E.xfs_qm_qino_load s.world (XFS_M sb) XFS_DQTYPE_USER).1 →
        ¬ load_ok (E.xfs_qm_qino_load (world_after_fill E s.world (XFS_M sb) XFS_DQTYPE_USER)
          (XFS_M sb) XFS_DQTYPE_GROUP).1 →
        ret = (E.xfs_qm_qino_load (world_after_fill E s.world (XFS_M sb) XFS_DQTYPE_USER)
          (XFS_M sb) XFS_DQTYPE_GROUP).1 ∧
        s1.trace = s.trace ++ reader_calls E s.world (XFS_M sb) XFS_DQTYPE_USER ++
          [Call.qino_load XFS_DQTYPE_GROUP]) ∧
      (load_ok (E.xfs_qm_qino_load s.world (XFS_M sb) XFS_DQTYPE_USER).1 →
        load_ok (E.xfs_qm_qino_load (world_after_fill E s.world (XFS_M sb) XFS_DQTYPE_USER)
          (XFS_M sb) XFS_DQTYPE_GROUP).1 →
        ¬ load_ok (E.xfs_qm_qino_load
          (world_after_fill E (world_after_fill E s.world (XFS_M sb) XFS_DQTYPE_USER)
            (XFS_M sb) XFS_DQTYPE_GROUP) (XFS_M sb) XFS_DQTYPE_PROJ).1 →
        ret = (E.xfs_qm_qino_load
          (world_after_fill E (world_after_fill E s.world (XFS_M sb) XFS_DQTYPE_USER)
            (XFS_M sb) XFS_DQTYPE_GROUP) (XFS_M sb) XFS_DQTYPE_PROJ).1 ∧
        s1.trace = s.trace ++ reader_calls E s.world (XFS_M sb) XFS_DQTYPE_USER ++
          reader_calls E (world_after_fill E s.world (XFS_M sb) XFS_DQTYPE_USER)
            (XFS_M sb) XFS_DQTYPE_GROUP ++ [Call.qino_load XFS_DQTYPE_PROJ]) ∧
      (ret = 0 ↔
        (load_ok (E.xfs_qm_qino_load s.world (XFS_M sb) XFS_DQTYPE_USER).1 ∧
          load_ok (E.xfs_qm_qino_load (world_after_fill E s.world (XFS_M sb) XFS_DQTYPE_USER)
            (XFS_M sb) XFS_DQTYPE_GROUP).1 ∧
          load_ok (E.xfs_qm_qino_load
            (world_after_fill E (world_after_fill E s.world (XFS_M sb) XFS_DQTYPE_USER)
              (XFS_M sb) XFS_DQTYPE_GROUP) (XFS_M sb) XFS_DQTYPE_PROJ).1)) := by
  rw [get_quota_state_on E s sb st0 q hon hq]
  generalize hwG : world_after_fill E s.world (XFS_M sb) XFS_DQTYPE_USER = wG
  generalize hwP : world_after_fill E wG (XFS_M sb) XFS_DQTYPE_GROUP = wP
  have key : ∀ e : Int, ¬ load_ok e → reader_ret e = e := by
    intro e h
    exact reader_ret_of_error e (fun h0 => h (Or.inl h0)) (fun h1 => h (Or.inr h1))
  have kz : ∀ e : Int, reader_ret e = 0 ↔ load_ok e := reader_ret_eq_zero_iff
  by_cases hU : load_ok (E.xfs_qm_qino_load s.world (XFS_M sb) XFS_DQTYPE_USER).1
  · have hU0 := (kz _).mpr hU
    by_cases hG : load_ok (E.xfs_qm_qino_load wG (XFS_M sb) XFS_DQTYPE_GROUP).1
    · have hG0 := (kz _).mpr hG
      simp only [hU0, hG0, ne_eq, not_true_eq_false, if_false]
      refine ⟨_, _, _, rfl, fun h => absurd hU h, fun _ h => absurd hG h, ?_, ?_⟩
      · intro _ _ hP
        refine ⟨key _ hP, ?_⟩
        rw [reader_calls_of_error E wP (XFS_M sb) XFS_DQTYPE_PROJ hP]
      · rw [kz]
        exact ⟨fun h => ⟨hU, hG, h⟩, fun h => h.2.2⟩
    · have hGn : reader_ret (E.xfs_qm_qino_load wG (XFS_M sb) XFS_DQTYPE_GROUP).1 ≠ 0 :=
        fun h => hG ((kz _).mp h)
      simp only [hU0, hGn, ne_eq, not_true_eq_false, not_false_eq_true, if_false, if_true]
      refine ⟨_, _, _, rfl, fun h => absurd hU h, ?_, fun _ h => absurd h hG, ?_⟩
      · intro _ _
        refine ⟨key _ hG, ?_⟩
        rw [reader_calls_of_error E wG (XFS_M sb) XFS_DQTYPE_GROUP hG]
      · exact ⟨fun h => absurd h hGn, fun h => absurd h.2.1 hG⟩
  · have hUn : reader_ret (E.xfs_qm_qino_load s.world (XFS_M sb) XFS_DQTYPE_USER).1 ≠ 0 :=
      fun h => hU ((kz _).mp h)
    simp only [hUn, ne_eq, not_false_eq_true, if_true]
    refine ⟨_, _, _, rfl, ?_, fun h => absurd h hU, fun h => absurd h hU, ?_⟩
    · intro _
      refine ⟨key _ hU, ?_⟩
      rw [reader_calls_of_error E s.world (XFS_M sb) XFS_DQTYPE_USER hU]
    · exact ⟨fun h => absurd h hUn, fun h => absurd h.1 hU⟩

/-- Witness of C18: the user file loads, the load of the group file fails with
`-5`: the snapshot returns `-5` and the project file is never loaded. -/
theorem get_quota_state_first_error_witness :
    XFS_IS_QUOTA_ON (XFS_M (mkSbQ XFS_UQUOTA_ACCT)) = true ∧
    (XFS_M (mkSbQ XFS_UQUOTA_ACCT)).m_quotainfo = some exampleQuotainfo ∧
    ∃ ret st s1,
      xfs_fs_get_quota_state (fileEngine groupFileBroken) sys0 (mkSbQ XFS_UQUOTA_ACCT)
        qc_state_zero = some (ret, st, s1) ∧
      ret = -5 ∧
      s1.trace = [Call.qino_load XFS_DQTYPE_USER, Call.irele ⟨129, 8, 1⟩,
        Call.qino_load XFS_DQTYPE_GROUP] := by
  refine ⟨by decide, rfl, ?_⟩
  obtain ⟨ret, st, s1, h, -, h2, -, -⟩ :=
    get_quota_state_first_error (fileEngine groupFileBroken) sys0 (mkSbQ XFS_UQUOTA_ACCT)
      qc_state_zero exampleQuotainfo (by decide) rfl
  have h3 := h2 (by decide) (by decide)
  exact ⟨ret, st, s1, h, h3.1, h3.2⟩

/-- The accounting and enforcement flags of a type state that the snapshot
prepared are the ones it was prepared with. -/
theorem snapshot_tstate_flags (acct enf : Bool) :
    ((snapshot_tstate acct enf).flags &&& QCI_ACCT_ENABLED ≠ 0 ↔ acct = true) ∧
    ((snapshot_tstate acct enf).flags &&& QCI_LIMITS_ENFORCED ≠ 0 ↔ enf = true) := by
  cases acct <;> cases enf <;> decide

/-- The reader leaves the accounting and enforcement flags as the snapshot
prepared them. -/
theorem reader_state_flags (acct enf : Bool) (e : Int) (ip : xfs_inode)
    (defq : xfs_def_quota) :
    ((reader_state (snapshot_tstate acct enf) e ip defq).flags &&& QCI_ACCT_ENABLED ≠ 0 ↔
      acct = true) ∧
    ((reader_state (snapshot_tstate acct enf) e ip defq).flags &&& QCI_LIMITS_ENFORCED ≠ 0 ↔
      enf = true) := by
  unfold reader_state
  split_ifs
  · exact snapshot_tstate_flags acct enf
  · show (((snapshot_tstate acct enf).flags ||| QCI_SYSFILE) &&& QCI_ACCT_ENABLED ≠ 0 ↔
        acct = true) ∧
      (((snapshot_tstate acct enf).flags ||| QCI_SYSFILE) &&& QCI_LIMITS_ENFORCED ≠ 0 ↔
        enf = true)
    cases acct <;> cases enf <;> decide

/-- C19: in every result of `xfs_fs_get_quota_state` with quota on, in
particular in every snapshot returned with 0, `s_incoredqs` is the engine's
counter `qi_dquots` (a 32-bit word), and for each of the three types the flag
`QCI_ACCT_ENABLED` of its state is set exactly when accounting is on for that
type and `QCI_LIMITS_ENFORCED` exactly when enforcement is on for that type. -/
theorem snapshot_count_and_flags (E : Engine W) (s : Sys W) (sb : super_block)
    (st0 : qc_state) (q : xfs_quotainfo) (ret : Int) (st : qc_state) (s1 : Sys W)
    (hon : XFS_IS_QUOTA_ON (XFS_M sb) = true) (hq : (XFS_M sb).m_quotainfo = some q)
    (h32 : q.qi_dquots < 2 ^ 32)
    (hres : xfs_fs_get_quota_state E s sb st0 = some (ret, st, s1)) :
    st.s_incoredqs = q.qi_dquots ∧
    (st.s_state_USRQUOTA.flags &&& QCI_ACCT_ENABLED ≠ 0 ↔
      XFS_IS_UQUOTA_ON (XFS_M sb) = true) ∧
    (st.s_state_USRQUOTA.flags &&& QCI_LIMITS_ENFORCED ≠ 0 ↔
      XFS_IS_UQUOTA_ENFORCED (XFS_M sb) = true) ∧
    (st.s_state_GRPQUOTA.flags &&& QCI_ACCT_ENABLED ≠ 0 ↔
      XFS_IS_GQUOTA_ON (XFS_M sb) = true) ∧
    (st.s_state_GRPQUOTA.flags &&& QCI_LIMITS_ENFORCED ≠ 0 ↔
      XFS_IS_GQUOTA_ENFORCED (XFS_M sb) = true) ∧
    (st.s_state_PRJQUOTA.flags &&& QCI_ACCT_ENABLED ≠ 0 ↔
      XFS_IS_PQUOTA_ON (XFS_M sb) = true) ∧
    (st.s_state_PRJQUOTA.flags &&& QCI_LIMITS_ENFORCED ≠ 0 ↔
      XFS_IS_PQUOTA_ENFORCED (XFS_M sb) = true) := by
  obtain ⟨hn, ⟨eU, ipU, hU⟩, hG, hP⟩ :=
    get_quota_state_shape E s sb st0 q ret st s1 hon hq hres
  have hGf : (st.s_state_GRPQUOTA.flags &&& QCI_ACCT_ENABLED ≠ 0 ↔
        XFS_IS_GQUOTA_ON (XFS_M sb) = true) ∧
      (st.s_state_GRPQUOTA.flags &&& QCI_LIMITS_ENFORCED ≠ 0 ↔
        XFS_IS_GQUOTA_ENFORCED (XFS_M sb) = true) := by
    rcases hG with hG | ⟨e, ip, hG⟩
    · rw [hG]; exact snapshot_tstate_flags _ _
    · rw [hG]; exact reader_state_flags _ _ _ _ _
  have hPf : (st.s_state_PRJQUOTA.flags &&& QCI_ACCT_ENABLED ≠ 0 ↔
        XFS_IS_PQUOTA_ON (XFS_M sb) = true) ∧
      (st.s_state_PRJQUOTA.flags &&& QCI_LIMITS_ENFORCED ≠ 0 ↔
        XFS_IS_PQUOTA_ENFORCED (XFS_M sb) = true) := by
    rcases hP with hP | ⟨e, ip, hP⟩
    · rw [hP]; exact snapshot_tstate_flags _ _
    · rw [hP]; exact reader_state_flags _ _ _ _ _
  have hUf := reader_state_flags (XFS_IS_UQUOTA_ON (XFS_M sb))
    (XFS_IS_UQUOTA_ENFORCED (XFS_M sb)) eU ipU q.qi_usr_default
  rw [← hU] at hUf
  refine ⟨?_, hUf.1, hUf.2, hGf.1, hGf.2, hPf.1, hPf.2⟩
  rw [hn, Nat.mod_eq_of_lt h32]

/-- Witness of C19: user accounting and group enforcement bits in the quota
flags, only the user file provisioned. -/
theorem snapshot_count_and_flags_witness :
    XFS_IS_QUOTA_ON (XFS_M (mkSbQ XFS_UQUOTA_ACCT)) = true ∧
    (XFS_M (mkSbQ XFS_UQUOTA_ACCT)).m_quotainfo = some exampleQuotainfo ∧
    exampleQuotainfo.qi_dquots < 2 ^ 32 ∧
    xfs_fs_get_quota_state (fileEngine userFileOnly) sys0 (mkSbQ XFS_UQUOTA_ACCT) qc_state_zero =
      some (0, userOnlySnapshot, ⟨(), userOnlyCalls⟩) ∧
    userOnlySnapshot.s_incoredqs = exampleQuotainfo.qi_dquots ∧
    (userOnlySnapshot.s_state_USRQUOTA.flags &&& QCI_ACCT_ENABLED ≠ 0 ↔
      XFS_IS_UQUOTA_ON (XFS_M (mkSbQ XFS_UQUOTA_ACCT)) = true) :=
  have h := snapshot_count_and_flags (fileEngine userFileOnly) sys0 (mkSbQ XFS_UQUOTA_ACCT)
    qc_state_zero exampleQuotainfo 0 userOnlySnapshot ⟨(), userOnlyCalls⟩ (by decide) rfl
    (by decide) rfl
  ⟨by decide, rfl, by decide, rfl, h.1, h.2.1⟩

/-- C20: when `xfs_qm_qino_load` succeeds for the type (and quota info with the
default limits `defq` of the type is attached), `xfs_qm_fill_state` returns 0;
the state has `QCI_SYSFILE` or-ed into its flags, so that every flag already set
stays set, the inode number, block count and extent count of the system file,
each timer equal to the engine's default timer reduced modulo `2 ^ 32`, and
the three warn limits zero; the engine calls are the load and then one release
of the loaded inode. -/
theorem fill_state_provisioned (E : Engine W) (s : Sys W) (t : qc_type_state)
    (mp : xfs_mount) (type : Nat) (q : xfs_quotainfo) (defq : xfs_def_quota)
    (hload : (E.xfs_qm_qino_load s.world mp type).1 = 0)
    (hq : mp.m_quotainfo = some q) (hd : xfs_get_defquota q type = some defq) :
    xfs_qm_fill_state E s t mp type =
      some (0,
        { flags := t.flags ||| QCI_SYSFILE
          spc_timelimit := (defq.blk.time % 2 ^ 32).toNat
          ino_timelimit := (defq.ino.time % 2 ^ 32).toNat
          rt_spc_timelimit := (defq.rtb.time % 2 ^ 32).toNat
          spc_warnlimit := 0
          ino_warnlimit := 0
          rt_spc_warnlimit := 0
          ino := (E.xfs_qm_qino_load s.world mp type).2.1.i_ino
          blocks := (E.xfs_qm_qino_load s.world mp type).2.1.i_nblocks
          nextents := (E.xfs_qm_qino_load s.world mp type).2.1.if_nextents },
        ⟨E.xfs_irele (E.xfs_qm_qino_load s.world mp type).2.2
            (E.xfs_qm_qino_load s.world mp type).2.1,
          s.trace ++ [Call.qino_load type,
            Call.irele (E.xfs_qm_qino_load s.world mp type).2.1]⟩) ∧
    (t.flags ||| QCI_SYSFILE) &&& QCI_SYSFILE ≠ 0 ∧
    (t.flags ||| QCI_SYSFILE) &&& t.flags = t.flags := by
  refine ⟨?_, or_sysfile_and_sysfile _, or_and_self_eq _ _⟩
  rw [fill_state_eq E s t mp type q defq hq hd]
  simp [reader_ret, reader_state, reader_calls, world_after_fill, hload, cast_u32]

/-- Witness of C20: the user file on an engine that provisions it, read into a
state with both the accounting and the enforcement flag set. -/
theorem fill_state_provisioned_witness :
    ((fileEngine userFileOnly).xfs_qm_qino_load sys0.world (XFS_M (mkSbQ XFS_UQUOTA_ACCT))
      XFS_DQTYPE_USER).1 = 0 ∧
    (XFS_M (mkSbQ XFS_UQUOTA_ACCT)).m_quotainfo = some exampleQuotainfo ∧
    xfs_get_defquota exampleQuotainfo XFS_DQTYPE_USER = some ⟨⟨604800⟩, ⟨604800⟩, ⟨604800⟩⟩ ∧
    xfs_qm_fill_state (fileEngine userFileOnly) sys0 (snapshot_tstate true true)
        (XFS_M (mkSbQ XFS_UQUOTA_ACCT)) XFS_DQTYPE_USER =
      some (0, ⟨13, 604800, 604800, 604800, 0, 0, 0, 129, 8, 1⟩,
        ⟨(), [Call.qino_load XFS_DQTYPE_USER, Call.irele ⟨129, 8, 1⟩]⟩) :=
  ⟨by decide, rfl, rfl,
    (fill_state_provisioned (fileEngine userFileOnly) sys0 (snapshot_tstate true true)
      (XFS_M (mkSbQ XFS_UQUOTA_ACCT)) XFS_DQTYPE_USER exampleQuotainfo
      ⟨⟨604800⟩, ⟨604800⟩, ⟨604800⟩⟩ (by decide) rfl rfl).1⟩

end XfsQuotaops
